import Mathlib

/-!
A shallow embedding, over the real numbers, of the per-zone numerical core of
the sailfish hydrodynamics solvers: the 2D isothermal finite-volume solver
(`src/iso2d/mod.c`), the 2D adiabatic solver (`src/euler2d/mod.c`), the 1D
special-relativistic solver (`sailfish/solvers/srhd_1d.c`) and the isothermal
discontinuous-Galerkin solver (`sailfish/solvers/cbdisodg_2d.c`).

Double-precision arithmetic is modelled by exact real arithmetic; machine NaN
and the signed zero have no counterpart here.  `pow(x, e)` with a double
exponent is modelled by the real power `x ^ (e : ℝ)`, `sqrt`/`exp` by
`Real.sqrt`/`Real.exp`.  C arrays of length 3, 4 and 6 become either records
with one field per slot or functions out of `Fin n`.
-/

noncomputable section

/-- The `sign` macro of every solver, `copysign(1.0, x)`.  A negative zero is
not representable in `ℝ`, so `csign 0 = 1`, matching IEEE `copysign` at `+0`. -/
def csign (x : ℝ) : ℝ := if x < 0 then -1 else 1

/-- `plm_gradient_scalar` with the `PLM_THETA` macro made a parameter.  The C
body is textually identical in iso2d, euler2d and srhd_1d:
`a = (y0 - yl) * PLM_THETA; b = (yr - yl) * 0.5; c = (yr - y0) * PLM_THETA;`
returning `0.25 * fabs(sign(a) + sign(b)) * (sign(a) + sign(c)) * minabs(a, b, c)`. -/
def plmGradientTheta (theta yl y0 yr : ℝ) : ℝ :=
  let a := (y0 - yl) * theta
  let b := (yr - yl) * 0.5
  let c := (yr - y0) * theta
  0.25 * |csign a + csign b| * (csign a + csign c) * min |a| (min |b| |c|)

/-- `struct PointMass` as read by iso2d (fields `x, y, mass, radius, rate`) and
euler2d (additionally `vx, vy` and the sink `model`, with
`inactive = 0, acceleration_free = 1, torque_free = 2, force_free = 3`). -/
structure PointMass where
  x : ℝ
  y : ℝ
  vx : ℝ
  vy : ℝ
  mass : ℝ
  radius : ℝ
  rate : ℝ
  model : ℕ

/-- The Keplerian variant of `struct BufferZone` (fields read by the
iso2d/euler2d `buffer_source_term`). -/
structure KeplerianBuffer where
  surface_density : ℝ
  surface_pressure : ℝ
  central_mass : ℝ
  driving_rate : ℝ
  outer_radius : ℝ
  onset_width : ℝ

namespace iso2d

def PLM_THETA : ℝ := 1.5

/-- iso2d `plm_gradient_scalar` (PLM_THETA = 1.5). -/
def plm_gradient_scalar (yl y0 yr : ℝ) : ℝ := plmGradientTheta PLM_THETA yl y0 yr

/-- iso2d primitive state `prim[0..2] = (Σ, vx, vy)`. -/
structure Prim where
  sigma : ℝ
  vx : ℝ
  vy : ℝ

/-- iso2d conserved state `cons[0..2] = (Σ, px, py)`. -/
structure Cons where
  sigma : ℝ
  px : ℝ
  py : ℝ

/-- iso2d `conserved_to_primitive` (no floors, straight division). -/
def conserved_to_primitive (u : Cons) : Prim :=
  ⟨u.sigma, u.px / u.sigma, u.py / u.sigma⟩

/-- iso2d `primitive_to_conserved`. -/
def primitive_to_conserved (p : Prim) : Cons :=
  ⟨p.sigma, p.vx * p.sigma, p.vy * p.sigma⟩

/-- iso2d `primitive_to_velocity` (`direction` 0 is x, 1 is y, default 0.0). -/
def primitive_to_velocity (p : Prim) (direction : ℕ) : ℝ :=
  match direction with
  | 0 => p.vx
  | 1 => p.vy
  | _ => 0

/-- iso2d `primitive_to_flux` with isothermal pressure `Σ·cs²`. -/
def primitive_to_flux (p : Prim) (u : Cons) (cs2 : ℝ) (direction : ℕ) : Cons :=
  let vn := primitive_to_velocity p direction
  let pressure := p.sigma * cs2
  ⟨vn * u.sigma,
   vn * u.px + pressure * (if direction = 0 then 1 else 0),
   vn * u.py + pressure * (if direction = 1 then 1 else 0)⟩

/-- iso2d `primitive_to_outer_wavespeeds`: `vn ∓ sqrt cs²`. -/
def primitive_to_outer_wavespeeds (p : Prim) (cs2 : ℝ) (direction : ℕ) : ℝ × ℝ :=
  let cs := Real.sqrt cs2
  let vn := primitive_to_velocity p direction
  (vn - cs, vn + cs)

/-- `am = min3(0.0, al[0], ar[0])` in iso2d `riemann_hlle`. -/
def hlle_am (pl pr : Prim) (cs2 : ℝ) (direction : ℕ) : ℝ :=
  min 0 (min (primitive_to_outer_wavespeeds pl cs2 direction).1
             (primitive_to_outer_wavespeeds pr cs2 direction).1)

/-- `ap = max3(0.0, al[1], ar[1])` in iso2d `riemann_hlle`. -/
def hlle_ap (pl pr : Prim) (cs2 : ℝ) (direction : ℕ) : ℝ :=
  max 0 (max (primitive_to_outer_wavespeeds pl cs2 direction).2
             (primitive_to_outer_wavespeeds pr cs2 direction).2)

/-- iso2d `riemann_hlle`. -/
def riemann_hlle (pl pr : Prim) (cs2 : ℝ) (direction : ℕ) : Cons :=
  let ul := primitive_to_conserved pl
  let ur := primitive_to_conserved pr
  let fl := primitive_to_flux pl ul cs2 direction
  let fr := primitive_to_flux pr ur cs2 direction
  let am := hlle_am pl pr cs2 direction
  let ap := hlle_ap pl pr cs2 direction
  ⟨(fl.sigma * ap - fr.sigma * am - (ul.sigma - ur.sigma) * ap * am) / (ap - am),
   (fl.px * ap - fr.px * am - (ul.px - ur.px) * ap * am) / (ap - am),
   (fl.py * ap - fr.py * am - (ul.py - ur.py) * ap * am) / (ap - am)⟩

/-- The gravitational force `(fx, fy)` computed inside iso2d
`point_mass_source_term`:
`mag = sigma * mp / r2_soft; fx = -mag * dx / dr; fy = -mag * dy / dr`
with `r2_soft = r2 + rs*rs` and `dr = sqrt(r2)`. -/
def grav_force (m : PointMass) (x1 y1 sigma : ℝ) : ℝ × ℝ :=
  let dx := x1 - m.x
  let dy := y1 - m.y
  let r2 := dx * dx + dy * dy
  let r2_soft := r2 + m.radius * m.radius
  let dr := Real.sqrt r2
  let mag := sigma * m.mass / r2_soft
  (-mag * dx / dr, -mag * dy / dr)

/-- iso2d `point_mass_source_term` (a hard-coded force-free sink): returns the
`delta_cons` triple. -/
def point_mass_source_term (m : PointMass) (x1 y1 dt sigma : ℝ) : Cons :=
  let dx := x1 - m.x
  let dy := y1 - m.y
  let r2 := dx * dx + dy * dy
  let dr := Real.sqrt r2
  let f := grav_force m x1 y1 sigma
  let sink_rate := if dr < 4 * m.radius
    then m.rate * Real.exp (-((dr / m.radius) ^ (4.0 : ℝ))) else 0
  ⟨dt * sigma * sink_rate * (-1), dt * f.1, dt * f.2⟩

/-- iso2d `buffer_source_term`.  `none` models the `None` buffer variant.
The code drives the conserved state toward the Keplerian reference with rate
`driving_rate * omega_outer * max2(rc, 1.0)` whenever `rc > onset_radius`. -/
def buffer_source_term (buffer : Option KeplerianBuffer) (xc yc dt : ℝ) (cons : Cons) : Cons :=
  match buffer with
  | none => cons
  | some b =>
    let rc := Real.sqrt (xc * xc + yc * yc)
    let onset_radius := b.outer_radius - b.onset_width
    if rc > onset_radius then
      let pf := b.surface_density * Real.sqrt (b.central_mass / rc)
      let px := pf * (-yc / rc)
      let py := pf * (xc / rc)
      let omega_outer := Real.sqrt (b.central_mass / onset_radius ^ (3.0 : ℝ))
      let buffer_rate := b.driving_rate * omega_outer * max rc 1
      ⟨cons.sigma - (cons.sigma - b.surface_density) * buffer_rate * dt,
       cons.px - (cons.px - px) * buffer_rate * dt,
       cons.py - (cons.py - py) * buffer_rate * dt⟩
    else cons

end iso2d

namespace euler2d

def PLM_THETA : ℝ := 1.5

def GAMMA_LAW_INDEX : ℝ := 5 / 3

/-- euler2d `plm_gradient_scalar` (PLM_THETA = 1.5). -/
def plm_gradient_scalar (yl y0 yr : ℝ) : ℝ := plmGradientTheta PLM_THETA yl y0 yr

/-- euler2d primitive state `prim[0..3] = (Σ, vx, vy, p)`. -/
structure Prim where
  sigma : ℝ
  vx : ℝ
  vy : ℝ
  pres : ℝ

/-- euler2d conserved state `cons[0..3] = (Σ, px, py, E)`. -/
structure Cons where
  sigma : ℝ
  px : ℝ
  py : ℝ
  en : ℝ

/-- euler2d `conserved_to_primitive`: density floor, per-component velocity
ceiling, pressure floor. -/
def conserved_to_primitive (u : Cons)
    (velocity_ceiling density_floor pressure_floor : ℝ) : Prim :=
  let rho := max u.sigma density_floor
  let vx := csign u.px * min |u.px / rho| velocity_ceiling
  let vy := csign u.py * min |u.py / rho| velocity_ceiling
  let pres := max ((u.en - 0.5 * rho * (vx * vx + vy * vy)) * (GAMMA_LAW_INDEX - 1))
    pressure_floor
  ⟨rho, vx, vy, pres⟩

/-- euler2d `primitive_to_conserved`. -/
def primitive_to_conserved (p : Prim) : Cons :=
  ⟨p.sigma, p.vx * p.sigma, p.vy * p.sigma,
   p.pres / (GAMMA_LAW_INDEX - 1) + 0.5 * p.sigma * (p.vx * p.vx + p.vy * p.vy)⟩

/-- euler2d `primitive_to_velocity`. -/
def primitive_to_velocity (p : Prim) (direction : ℕ) : ℝ :=
  match direction with
  | 0 => p.vx
  | 1 => p.vy
  | _ => 0

/-- euler2d `primitive_to_flux` (pressure is the primitive `p`). -/
def primitive_to_flux (p : Prim) (u : Cons) (direction : ℕ) : Cons :=
  let vn := primitive_to_velocity p direction
  let pressure := p.pres
  ⟨vn * u.sigma,
   vn * u.px + pressure * (if direction = 0 then 1 else 0),
   vn * u.py + pressure * (if direction = 1 then 1 else 0),
   vn * (u.en + pressure)⟩

/-- euler2d `primitive_to_outer_wavespeeds`. -/
def primitive_to_outer_wavespeeds (p : Prim) (cs2 : ℝ) (direction : ℕ) : ℝ × ℝ :=
  let cs := Real.sqrt cs2
  let vn := primitive_to_velocity p direction
  (vn - cs, vn + cs)

/-- `am = min3(0.0, al[0], ar[0])` in euler2d `riemann_hlle`. -/
def hlle_am (pl pr : Prim) (cs2 : ℝ) (direction : ℕ) : ℝ :=
  min 0 (min (primitive_to_outer_wavespeeds pl cs2 direction).1
             (primitive_to_outer_wavespeeds pr cs2 direction).1)

/-- `ap = max3(0.0, al[1], ar[1])` in euler2d `riemann_hlle`. -/
def hlle_ap (pl pr : Prim) (cs2 : ℝ) (direction : ℕ) : ℝ :=
  max 0 (max (primitive_to_outer_wavespeeds pl cs2 direction).2
             (primitive_to_outer_wavespeeds pr cs2 direction).2)

/-- euler2d `riemann_hlle`. -/
def riemann_hlle (pl pr : Prim) (cs2 : ℝ) (direction : ℕ) : Cons :=
  let ul := primitive_to_conserved pl
  let ur := primitive_to_conserved pr
  let fl := primitive_to_flux pl ul direction
  let fr := primitive_to_flux pr ur direction
  let am := hlle_am pl pr cs2 direction
  let ap := hlle_ap pl pr cs2 direction
  ⟨(fl.sigma * ap - fr.sigma * am - (ul.sigma - ur.sigma) * ap * am) / (ap - am),
   (fl.px * ap - fr.px * am - (ul.px - ur.px) * ap * am) / (ap - am),
   (fl.py * ap - fr.py * am - (ul.py - ur.py) * ap * am) / (ap - am),
   (fl.en * ap - fr.en * am - (ul.en - ur.en) * ap * am) / (ap - am)⟩

/-- euler2d `disk_height`: `sqrt(p/Σ) / sqrt(Σ_p m_p / r_p³)` with the
`1e-12` softening of `r²`. -/
def disk_height (masses : List PointMass) (x1 y1 : ℝ) (p : Prim) : ℝ :=
  let omegatilde2 := (masses.map (fun m =>
    let dx := x1 - m.x
    let dy := y1 - m.y
    let r2 := dx * dx + dy * dy + 1e-12
    m.mass / r2 / Real.sqrt r2)).sum
  Real.sqrt (p.pres / p.sigma) / Real.sqrt omegatilde2

/-- The gravitational force `(fx, fy)` computed inside euler2d
`point_mass_source_term`; the softening length is `rs = 0.5 * h` with `h` the
local disk height passed by the caller:
`mag = sigma * mp / (r2 + rs*rs); fx = -mag * dx / dr; fy = -mag * dy / dr`. -/
def grav_force (m : PointMass) (x1 y1 sigma h : ℝ) : ℝ × ℝ :=
  let dx := x1 - m.x
  let dy := y1 - m.y
  let r2 := dx * dx + dy * dy
  let rs := 0.5 * h
  let r2_soft := r2 + rs * rs
  let dr := Real.sqrt r2
  let mag := sigma * m.mass / r2_soft
  (-mag * dx / dr, -mag * dy / dr)

/-- euler2d `point_mass_source_term`: the three sink models (1 acceleration
free, 2 torque free, 3 force free, default inactive). -/
def point_mass_source_term (m : PointMass) (x1 y1 dt : ℝ) (p : Prim) (h : ℝ) : Cons :=
  let dx := x1 - m.x
  let dy := y1 - m.y
  let r2 := dx * dx + dy * dy
  let rs := 0.5 * h
  let dr := Real.sqrt r2
  let eps := p.pres / (GAMMA_LAW_INDEX - 1) / p.sigma
  let f := grav_force m x1 y1 p.sigma h
  let fx := f.1
  let fy := f.2
  let sink_rate := if dr < 4 * rs
    then m.rate * Real.exp (-((dr / rs) ^ (4.0 : ℝ))) else 0
  let mdot := p.sigma * sink_rate * (-1)
  match m.model with
  | 1 =>
    ⟨dt * mdot, dt * mdot * p.vx + dt * fx, dt * mdot * p.vy + dt * fy,
     dt * (mdot * eps + 0.5 * mdot * (p.vx * p.vx + p.vy * p.vy))
       + dt * (fx * p.vx + fy * p.vy)⟩
  | 2 =>
    let rhatx := dx / dr
    let rhaty := dy / dr
    let dvdotrhat := (p.vx - m.vx) * rhatx + (p.vy - m.vy) * rhaty
    let vxstar := dvdotrhat * rhatx + m.vx
    let vystar := dvdotrhat * rhaty + m.vy
    ⟨dt * mdot, dt * mdot * vxstar + dt * fx, dt * mdot * vystar + dt * fy,
     dt * (mdot * eps + 0.5 * mdot * (vxstar * vxstar + vystar * vystar))
       + dt * (fx * p.vx + fy * p.vy)⟩
  | 3 => ⟨dt * mdot, dt * fx, dt * fy, dt * (fx * p.vx + fy * p.vy)⟩
  | _ => ⟨0, 0, 0, 0⟩

/-- euler2d `buffer_source_term` (same legacy `max2(rc, 1.0)` ramp as iso2d,
with the additional energy row). -/
def buffer_source_term (buffer : Option KeplerianBuffer) (xc yc dt : ℝ) (cons : Cons) : Cons :=
  match buffer with
  | none => cons
  | some b =>
    let rc := Real.sqrt (xc * xc + yc * yc)
    let onset_radius := b.outer_radius - b.onset_width
    if rc > onset_radius then
      let pf := b.surface_density * Real.sqrt (b.central_mass / rc)
      let px := pf * (-yc / rc)
      let py := pf * (xc / rc)
      let kinetic_energy := 0.5 * (px * px + py * py) / b.surface_density
      let energy := b.surface_pressure / (GAMMA_LAW_INDEX - 1) + kinetic_energy
      let omega_outer := Real.sqrt (b.central_mass / onset_radius ^ (3.0 : ℝ))
      let buffer_rate := b.driving_rate * omega_outer * max rc 1
      ⟨cons.sigma - (cons.sigma - b.surface_density) * buffer_rate * dt,
       cons.px - (cons.px - px) * buffer_rate * dt,
       cons.py - (cons.py - py) * buffer_rate * dt,
       cons.en - (cons.en - energy) * buffer_rate * dt⟩
    else cons

end euler2d

namespace srhd1d

def PLM_THETA : ℝ := 2

def ADIABATIC_GAMMA : ℝ := 4 / 3

/-- srhd_1d `plm_gradient_scalar` (PLM_THETA = 2.0). -/
def plm_gradient_scalar (yl y0 yr : ℝ) : ℝ := plmGradientTheta PLM_THETA yl y0 yr

/-- srhd_1d primitive state `prim[0..3] = (ρ, u¹, p, s)`. -/
structure Prim where
  rho : ℝ
  u1 : ℝ
  pre : ℝ
  s : ℝ

/-- `primitive_to_gamma_beta_squared`. -/
def primitive_to_gamma_beta_squared (p : Prim) : ℝ := p.u1 * p.u1

/-- `primitive_to_lorentz_factor`: `sqrt(1 + u¹u¹)`. -/
def primitive_to_lorentz_factor (p : Prim) : ℝ :=
  Real.sqrt (1 + primitive_to_gamma_beta_squared p)

/-- `primitive_to_beta_component`: `u¹ / W`. -/
def primitive_to_beta_component (p : Prim) : ℝ :=
  p.u1 / primitive_to_lorentz_factor p

/-- `primitive_to_enthalpy_density`: `ρ + p (1 + 1/(γ−1))`. -/
def primitive_to_enthalpy_density (p : Prim) : ℝ :=
  p.rho + p.pre * (1 + 1 / (ADIABATIC_GAMMA - 1))

/-- srhd_1d `primitive_to_conserved` (a `Fin 4`-indexed conserved vector
`cons[0..3] = (dv·D, dv·S, dv·τ, dv·D·s)`). -/
def primitive_to_conserved (p : Prim) (dv : ℝ) : Fin 4 → ℝ :=
  let w := primitive_to_lorentz_factor p
  let h := primitive_to_enthalpy_density p / p.rho
  let m := p.rho * w
  fun q => match q with
  | 0 => dv * m
  | 1 => dv * m * h * p.u1
  | 2 => dv * m * (h * w - 1) - dv * p.pre
  | 3 => dv * m * p.s

/-- srhd_1d `primitive_to_flux`. -/
def primitive_to_flux (p : Prim) (cons : Fin 4 → ℝ) : Fin 4 → ℝ :=
  let vn := primitive_to_beta_component p
  fun q => match q with
  | 0 => vn * cons 0
  | 1 => vn * cons 1 + p.pre
  | 2 => vn * cons 2 + p.pre * vn
  | 3 => vn * cons 0 * p.s

/-- `primitive_to_sound_speed_squared`: `γ p / (ρ h)`. -/
def primitive_to_sound_speed_squared (p : Prim) : ℝ :=
  ADIABATIC_GAMMA * p.pre / primitive_to_enthalpy_density p

/-- srhd_1d `primitive_to_outer_wavespeeds`, the full relativistic formula. -/
def primitive_to_outer_wavespeeds (p : Prim) : ℝ × ℝ :=
  let a2 := primitive_to_sound_speed_squared p
  let uu := primitive_to_gamma_beta_squared p
  let vn := primitive_to_beta_component p
  let vv := uu / (1 + uu)
  let v2 := vn * vn
  let k0 := Real.sqrt (a2 * (1 - vv) * (1 - vv * a2 - v2 * (1 - a2)))
  ((vn * (1 - a2) - k0) / (1 - vv * a2), (vn * (1 - a2) + k0) / (1 - vv * a2))

/-- srhd_1d `primitive_with_radial_boost`. -/
def primitive_with_radial_boost (p : Prim) (beta : ℝ) : Prim :=
  let gw := 1 / Real.sqrt (1 - beta * beta)
  ⟨p.rho, p.u1 * gw - primitive_to_lorentz_factor p * gw * beta, p.pre, p.s⟩

/-- One execution of the body of the Newton `while (1)` loop of
`conserved_to_primitive`, from the current pressure iterate: returns the
updated pressure `p - f/g`, the Lorentz factor `w` of this round, and the
residual `f` tested by the loop's break condition. -/
structure NewtonState where
  p : ℝ
  w : ℝ
  f : ℝ

/-- The Newton loop body (`et`, `b2`, `w2`, `w`, `e`, `d`, `h`, `a2`, `g`, `f`
exactly as in the C source; `m`, `tau`, `ss` are the volume-specific conserved
variables fixed outside the loop). -/
def newtonBody (gm m tau ss : ℝ) (p : ℝ) : NewtonState :=
  let et := tau + p + m
  let b2 := min (ss / et / et) (1 - 1e-10)
  let w2 := 1 / (1 - b2)
  let w := Real.sqrt w2
  let e := (tau + m * (1 - w) + p * (1 - w2)) / (m * w)
  let d := m / w
  let h := 1 + e + p / d
  let a2 := gm * p / (d * h)
  let g := b2 * a2 - 1
  let f := d * e * (gm - 1) - p
  ⟨p - f / g, w, f⟩

/-- The pressure update of one Newton round. -/
def newtonNext (gm m tau ss p : ℝ) : ℝ := (newtonBody gm m tau ss p).p

/-- The residual `f` computed by one Newton round. -/
def newtonResidual (gm m tau ss p : ℝ) : ℝ := (newtonBody gm m tau ss p).f

/-- The Newton `while (1)` loop.  The fuel argument is
`newton_iter_max - iteration`: the C loop body runs, then breaks when
`fabs(f) < error_tolerance || iteration == newton_iter_max`, else increments
`iteration` and repeats.  Returns the final pressure iterate, the Lorentz
factor `w0` saved at the break, and whether the loop exited with
`iteration == newton_iter_max` (the condition that triggers the max-iteration
fatal report). -/
def newtonLoop (gm m tau ss tol : ℝ) : ℝ → ℕ → ℝ × ℝ × Bool
  | p, 0 => ((newtonBody gm m tau ss p).p, (newtonBody gm m tau ss p).w, true)
  | p, n + 1 =>
    let st := newtonBody gm m tau ss p
    if |st.f| < tol then (st.p, st.w, false)
    else newtonLoop gm m tau ss tol st.p n

/-- The outcome of srhd_1d `conserved_to_primitive`.  Each `Option ℝ` models
one of the three `[FATAL] ... at position ...` reports (max-iteration,
non-positive `tau`, non-positive pressure): it carries the physical coordinate
exactly when the corresponding check fires.  (In the C code the checks run in
that order and `exit(1)` at the first hit; machine NaN, which the pressure
check also traps via `p != p`, has no counterpart in `ℝ`.) -/
structure C2PResult where
  prim : Prim
  maxIterReport : Option ℝ
  tauReport : Option ℝ
  pressureReport : Option ℝ

/-- srhd_1d `conserved_to_primitive`.  `seedPre` is `prim[2]` on entry: the
kernel is called with the output array still holding the previous primitive
state, so the Newton iteration is seeded with the old pressure.  The error
tolerance is `1e-12 * (cons[0] + cons[2]) / dv` and the iteration cap is
`newton_iter_max = 500`. -/
def conserved_to_primitive (cons : Fin 4 → ℝ) (seedPre dv coordinate : ℝ) : C2PResult :=
  let gm := ADIABATIC_GAMMA
  let tol := 1e-12 * (cons 0 + cons 2) / dv
  let m := cons 0 / dv
  let tau := cons 2 / dv
  let ss := cons 1 / dv * (cons 1 / dv)
  let r := newtonLoop gm m tau ss tol seedPre 500
  let p := r.1
  let w0 := r.2.1
  let prim1 : Prim := ⟨m / w0, w0 * (cons 1 / dv) / (tau + m + p), p, cons 3 / cons 0⟩
  let u := prim1.u1
  let e := prim1.pre / prim1.rho * 3
  let emin := u * u / (1 + u * u) / (1e6 : ℝ) ^ (2.0 : ℝ)
  let prim2 : Prim :=
    if e < emin then ⟨prim1.rho, prim1.u1, prim1.rho * emin * (ADIABATIC_GAMMA - 1), prim1.s⟩
    else prim1
  ⟨prim2,
   if r.2.2 then some coordinate else none,
   if cons 2 ≤ 0 then some coordinate else none,
   if prim2.pre ≤ 0 then some coordinate else none⟩

/-- `am = min2(al[0], ar[0])` in srhd_1d `riemann_hllc` (no outer zero). -/
def hllc_am (pl pr : Prim) : ℝ :=
  min (primitive_to_outer_wavespeeds pl).1 (primitive_to_outer_wavespeeds pr).1

/-- `ap = max2(al[1], ar[1])` in srhd_1d `riemann_hllc`. -/
def hllc_ap (pl pr : Prim) : ℝ :=
  max (primitive_to_outer_wavespeeds pl).2 (primitive_to_outer_wavespeeds pr).2

/-- `u_hll` inside srhd_1d `riemann_hllc` (volume factor `dv = 1`). -/
def hllc_u_hll (pl pr : Prim) : Fin 4 → ℝ := fun q =>
  let ul := primitive_to_conserved pl 1
  let ur := primitive_to_conserved pr 1
  let fl := primitive_to_flux pl ul
  let fr := primitive_to_flux pr ur
  let am := hllc_am pl pr
  let ap := hllc_ap pl pr
  (ur q * ap - ul q * am + (fl q - fr q)) / (ap - am)

/-- `f_hll` inside srhd_1d `riemann_hllc`. -/
def hllc_f_hll (pl pr : Prim) : Fin 4 → ℝ := fun q =>
  let ul := primitive_to_conserved pl 1
  let ur := primitive_to_conserved pr 1
  let fl := primitive_to_flux pl ul
  let fr := primitive_to_flux pr ur
  let am := hllc_am pl pr
  let ap := hllc_ap pl pr
  (fl q * ap - fr q * am - (ul q - ur q) * ap * am) / (ap - am)

/-- The contact speed `v_star` of srhd_1d `riemann_hllc`: the minus-root of
`a v² + b v + c = 0` with `a = f_hll[2] + f_hll[0]`,
`b = -(u_hll[2] + u_hll[0] + f_hll[1])`, `c = u_hll[1]`, except `-c/b` when
`fabs(a) < 1e-10`. -/
def hllc_vstar (pl pr : Prim) : ℝ :=
  let a := hllc_f_hll pl pr 2 + hllc_f_hll pl pr 0
  let b := -(hllc_u_hll pl pr 2 + hllc_u_hll pl pr 0 + hllc_f_hll pl pr 1)
  let c := hllc_u_hll pl pr 1
  if |a| < 1e-10 then -c / b
  else (-b - Real.sqrt (b * b - 4 * a * c)) / (2 * a)

/-- The star pressure `p_star = -a * v_star + f_hll[1]`. -/
def hllc_pstar (pl pr : Prim) : ℝ :=
  -(hllc_f_hll pl pr 2 + hllc_f_hll pl pr 0) * hllc_vstar pl pr + hllc_f_hll pl pr 1

/-- The left star-state flux of srhd_1d `riemann_hllc`
(the `v_face < v_star` branch). -/
def hllc_left_star_flux (pl pr : Prim) (v_face : ℝ) : Fin 4 → ℝ :=
  let ul := primitive_to_conserved pl 1
  let am := hllc_am pl pr
  let v_star := hllc_vstar pl pr
  let p_star := hllc_pstar pl pr
  let vl := primitive_to_beta_component pl
  let D_star := ul 0 * (am - vl) / (am - v_star)
  let E_star := (am * (ul 2 + ul 0) - ul 1 + p_star * v_star) / (am - v_star)
  let Sr_star := (E_star + p_star) * v_star
  let tau_star := E_star - D_star
  let s_star := ul 3 * (am - vl) / (am - v_star)
  ![D_star * v_star - v_face * D_star,
    Sr_star * v_star + p_star - v_face * Sr_star,
    Sr_star - D_star * v_star - v_face * tau_star,
    s_star * v_star - v_face * s_star]

/-- The right star-state flux of srhd_1d `riemann_hllc`
(the `v_face >= v_star` branch). -/
def hllc_right_star_flux (pl pr : Prim) (v_face : ℝ) : Fin 4 → ℝ :=
  let ur := primitive_to_conserved pr 1
  let ap := hllc_ap pl pr
  let v_star := hllc_vstar pl pr
  let p_star := hllc_pstar pl pr
  let vr := primitive_to_beta_component pr
  let D_star := ur 0 * (ap - vr) / (ap - v_star)
  let E_star := (ap * (ur 2 + ur 0) - ur 1 + p_star * v_star) / (ap - v_star)
  let Sr_star := (E_star + p_star) * v_star
  let tau_star := E_star - D_star
  let s_star := ur 3 * (ap - vr) / (ap - v_star)
  ![D_star * v_star - v_face * D_star,
    Sr_star * v_star + p_star - v_face * Sr_star,
    Sr_star - D_star * v_star - v_face * tau_star,
    s_star * v_star - v_face * s_star]

/-- srhd_1d `riemann_hllc`. -/
def riemann_hllc (pl pr : Prim) (v_face : ℝ) : Fin 4 → ℝ :=
  let ul := primitive_to_conserved pl 1
  let ur := primitive_to_conserved pr 1
  let fl := primitive_to_flux pl ul
  let fr := primitive_to_flux pr ur
  let am := hllc_am pl pr
  let ap := hllc_ap pl pr
  if v_face < am then fun q => fl q - v_face * ul q
  else if v_face > ap then fun q => fr q - v_face * ur q
  else if v_face < hllc_vstar pl pr then hllc_left_star_flux pl pr v_face
  else hllc_right_star_flux pl pr v_face

/-- The per-zone body of the `srhd_1d_max_wavespeeds` kernel.  The boosted
primitive is computed and its wavespeeds written to `ai`, but the same `ai`
is immediately overwritten by the wavespeeds of the unboosted primitive (the
first `let` below is dead, exactly as in the C source); the zone output is
`max2(fabs(ai[0]), fabs(ai[1]))`. -/
def max_wavespeed_zone (p : Prim) (x0 x1 adot : ℝ) : ℝ :=
  let p_boosted := primitive_with_radial_boost p (0.5 * (x0 + x1) * adot)
  let ai_dead := primitive_to_outer_wavespeeds p_boosted
  let ai := primitive_to_outer_wavespeeds p
  max |ai.1| |ai.2|

end srhd1d

namespace cbdisodg

/-- cbdisodg_2d `struct PointMass`. -/
structure PointMass where
  x : ℝ
  y : ℝ
  vx : ℝ
  vy : ℝ
  mass : ℝ
  softening_length : ℝ
  sink_rate : ℝ
  sink_radius : ℝ
  sink_model : ℕ

/-- cbdisodg_2d `struct KeplerianBuffer` (with the `is_enabled` flag). -/
structure KeplerianBuffer where
  surface_density : ℝ
  surface_pressure : ℝ
  central_mass : ℝ
  driving_rate : ℝ
  outer_radius : ℝ
  onset_width : ℝ
  is_enabled : Bool

/-- cbdisodg_2d `gravitational_potential` over the two-mass list (each term
contributes only when `mass > 0.0`). -/
def gravitational_potential (masses : PointMass × PointMass) (x1 y1 : ℝ) : ℝ :=
  let pot := fun (m : PointMass) =>
    if 0 < m.mass then
      let dx := x1 - m.x
      let dy := y1 - m.y
      m.mass / Real.sqrt (dx * dx + dy * dy + m.softening_length * m.softening_length)
    else 0
  let phi := -(pot masses.1 + pot masses.2)
  phi

/-- The gravitational force `(fx, fy)` computed inside cbdisodg_2d
`point_mass_source_term`:
`fgrav_numerator = sigma * mass * pow(r2 + r_soft * r_soft, -1.5)`,
`fx = -fgrav_numerator * dx`, `fy = -fgrav_numerator * dy`. -/
def grav_force (m : PointMass) (x1 y1 sigma : ℝ) : ℝ × ℝ :=
  let dx := x1 - m.x
  let dy := y1 - m.y
  let r2 := dx * dx + dy * dy
  let fgrav_numerator :=
    sigma * m.mass * (r2 + m.softening_length * m.softening_length) ^ (-1.5 : ℝ)
  (-fgrav_numerator * dx, -fgrav_numerator * dy)

/-- cbdisodg_2d `point_mass_source_term` (sink models 1, 2, 3, default
inactive); returns the `delta_cons` triple for time step `dt`. -/
def point_mass_source_term (m : PointMass) (x1 y1 dt : ℝ) (prim : Fin 3 → ℝ) :
    Fin 3 → ℝ :=
  let dx := x1 - m.x
  let dy := y1 - m.y
  let r2 := dx * dx + dy * dy
  let dr := Real.sqrt r2
  let sigma := prim 0
  let f := grav_force m x1 y1 sigma
  let fx := f.1
  let fy := f.2
  let sink_rate := if dr < 4 * m.sink_radius
    then m.sink_rate * Real.exp (-((dr / m.sink_radius) ^ (4.0 : ℝ))) else 0
  let mdot := sigma * sink_rate * (-1)
  match m.sink_model with
  | 1 => fun q => match q with
    | 0 => dt * mdot
    | 1 => dt * mdot * prim 1 + dt * fx
    | 2 => dt * mdot * prim 2 + dt * fy
  | 2 =>
    let rhatx := dx / (dr + 1e-12)
    let rhaty := dy / (dr + 1e-12)
    let dvdotrhat := (prim 1 - m.vx) * rhatx + (prim 2 - m.vy) * rhaty
    let vxstar := dvdotrhat * rhatx + m.vx
    let vystar := dvdotrhat * rhaty + m.vy
    fun q => match q with
    | 0 => dt * mdot
    | 1 => dt * mdot * vxstar + dt * fx
    | 2 => dt * mdot * vystar + dt * fy
  | 3 => fun q => match q with
    | 0 => dt * mdot
    | 1 => dt * fx
    | 2 => dt * fy
  | _ => fun _ => 0

/-- cbdisodg_2d `sound_speed_squared` (`eos_type` 1 globally isothermal,
2 locally isothermal, default `1.0`). -/
def sound_speed_squared (cs2 mach_squared : ℝ) (eos_type : ℕ) (x y : ℝ)
    (masses : PointMass × PointMass) : ℝ :=
  match eos_type with
  | 1 => cs2
  | 2 => -gravitational_potential masses x y / mach_squared
  | _ => 1

/-- cbdisodg_2d `buffer_source_term`: accumulates the buffer's RATE of change
`-(cons - u0) * buffer_rate` into `cons_dot` (no `dt` factor), with the
LINEAR onset ramp `(rc - onset_radius) / (outer_radius - onset_radius)`;
the `max2(rc, 1.0)` variant is commented out in the source. -/
def buffer_source_term (buffer : KeplerianBuffer) (xc yc : ℝ)
    (cons cons_dot : Fin 3 → ℝ) : Fin 3 → ℝ :=
  if buffer.is_enabled then
    let rc := Real.sqrt (xc * xc + yc * yc)
    let onset_radius := buffer.outer_radius - buffer.onset_width
    if rc > onset_radius then
      let pf := buffer.surface_density * Real.sqrt (buffer.central_mass / rc)
      let u0 : Fin 3 → ℝ := fun q => match q with
        | 0 => buffer.surface_density
        | 1 => pf * (-yc / rc)
        | 2 => pf * (xc / rc)
      let omega_outer := Real.sqrt (buffer.central_mass * onset_radius ^ (-3.0 : ℝ))
      let buffer_rate := buffer.driving_rate * omega_outer *
        (rc - onset_radius) / (buffer.outer_radius - onset_radius)
      fun q => cons_dot q - (cons q - u0 q) * buffer_rate
    else cons_dot
  else cons_dot

/-- cbdisodg_2d `conserved_to_primitive` (per-component velocity ceiling, no
density floor). -/
def conserved_to_primitive (cons : Fin 3 → ℝ) (velocity_ceiling : ℝ) : Fin 3 → ℝ :=
  fun q => match q with
  | 0 => cons 0
  | 1 => csign (cons 1) * min |cons 1 / cons 0| velocity_ceiling
  | 2 => csign (cons 2) * min |cons 2 / cons 0| velocity_ceiling

/-- cbdisodg_2d `primitive_to_velocity`. -/
def primitive_to_velocity (prim : Fin 3 → ℝ) (direction : ℕ) : ℝ :=
  match direction with
  | 0 => prim 1
  | 1 => prim 2
  | _ => 0

/-- cbdisodg_2d `primitive_to_flux`. -/
def primitive_to_flux (prim cons : Fin 3 → ℝ) (cs2 : ℝ) (direction : ℕ) : Fin 3 → ℝ :=
  let vn := primitive_to_velocity prim direction
  let pressure := prim 0 * cs2
  fun q => match q with
  | 0 => vn * cons 0
  | 1 => vn * cons 1 + pressure * (if direction = 0 then 1 else 0)
  | 2 => vn * cons 2 + pressure * (if direction = 1 then 1 else 0)

/-- cbdisodg_2d `primitive_to_outer_wavespeeds`. -/
def primitive_to_outer_wavespeeds (prim : Fin 3 → ℝ) (cs2 : ℝ) (direction : ℕ) : ℝ × ℝ :=
  let cs := Real.sqrt cs2
  let vn := primitive_to_velocity prim direction
  (vn - cs, vn + cs)

/-- cbdisodg_2d `riemann_hlle`; note it takes CONSERVED left/right states and
converts internally. -/
def riemann_hlle (ul ur : Fin 3 → ℝ) (cs2 velocity_ceiling : ℝ) (direction : ℕ) :
    Fin 3 → ℝ :=
  let pl := conserved_to_primitive ul velocity_ceiling
  let pr := conserved_to_primitive ur velocity_ceiling
  let fl := primitive_to_flux pl ul cs2 direction
  let fr := primitive_to_flux pr ur cs2 direction
  let al := primitive_to_outer_wavespeeds pl cs2 direction
  let ar := primitive_to_outer_wavespeeds pr cs2 direction
  let am := min 0 (min al.1 ar.1)
  let ap := max 0 (max al.2 ar.2)
  fun q => (fl q * ap - fr q * am - (ul q - ur q) * ap * am) / (ap - am)

/-- The 1D Gauss nodes `g[3]` of `cbdisodg_2d_advance_rk`. -/
def gauss_nodes : Fin 3 → ℝ := fun i =>
  match i with
  | 0 => -0.774596669241483
  | 1 => 0
  | 2 => 0.774596669241483

/-- The 1D Gauss weights `w[3]`. -/
def gauss_weights_1d : Fin 3 → ℝ := fun i =>
  match i with
  | 0 => 0.555555555555556
  | 1 => 0.888888888888889
  | 2 => 0.555555555555556

/-- Scaled Legendre polynomials `p[3][3]` at the 1D quadrature points. -/
def legP : Fin 3 → Fin 3 → ℝ := fun m i =>
  match m, i with
  | 0, _ => 1
  | 1, 0 => -1.341640786499873
  | 1, 1 => 0
  | 1, 2 => 1.341640786499873
  | 2, 0 => 0.894427190999914
  | 2, 1 => -1.11803398874990
  | 2, 2 => 0.894427190999914

/-- Derivatives `pp[3][3]` of the scaled Legendre polynomials at the 1D
quadrature points. -/
def legPP : Fin 3 → Fin 3 → ℝ := fun m i =>
  match m, i with
  | 0, _ => 0
  | 1, _ => 1.732050807568877
  | 2, 0 => -5.196152422706629
  | 2, 1 => 0
  | 2, 2 => 5.196152422706629

/-- Scaled Legendre polynomials `pfl[3]` at the left face. -/
def pfl : Fin 3 → ℝ := fun m =>
  match m with
  | 0 => 1
  | 1 => -1.732050807568877
  | 2 => 2.23606797749979

/-- Scaled Legendre polynomials `pfr[3]` at the right face. -/
def pfr : Fin 3 → ℝ := fun m =>
  match m with
  | 0 => 1
  | 1 => 1.732050807568877
  | 2 => 2.23606797749979

/-- The x-degree `m` of 2D basis function `l`: the source enumerates `(m, n)`
with `m`-major order, keeping `m + n < 3`, so
`l = 0..5 ↦ (0,0), (0,1), (0,2), (1,0), (1,1), (2,0)`. -/
def polyM : Fin 6 → Fin 3 := fun l =>
  match l with
  | 0 => 0
  | 1 => 0
  | 2 => 0
  | 3 => 1
  | 4 => 1
  | 5 => 2

/-- The y-degree `n` of 2D basis function `l`. -/
def polyN : Fin 6 → Fin 3 := fun l =>
  match l with
  | 0 => 0
  | 1 => 1
  | 2 => 2
  | 3 => 0
  | 4 => 1
  | 5 => 0

/-- `phi[il] = p[m][ic] * p[n][jc]` at the interior quadrature node `(ic, jc)`. -/
def phiVol (l : Fin 6) (ic jc : Fin 3) : ℝ := legP (polyM l) ic * legP (polyN l) jc

/-- `dphidx[il] = pp[m][ic] * p[n][jc]`. -/
def dphidxVol (l : Fin 6) (ic jc : Fin 3) : ℝ := legPP (polyM l) ic * legP (polyN l) jc

/-- `dphidy[il] = p[m][ic] * pp[n][jc]`. -/
def dphidyVol (l : Fin 6) (ic jc : Fin 3) : ℝ := legP (polyM l) ic * legPP (polyN l) jc

/-- `phil[il] = pfl[m] * p[n][node]` as assembled in each face loop of
`cbdisodg_2d_advance_rk` (the same expression is used for x- and y-faces). -/
def phiFaceL (l : Fin 6) (node : Fin 3) : ℝ := pfl (polyM l) * legP (polyN l) node

/-- `phir[il] = pfr[m] * p[n][node]`. -/
def phiFaceR (l : Fin 6) (node : Fin 3) : ℝ := pfr (polyM l) * legP (polyN l) node

/-- Modal weights of one zone: `weights[q * NPOLY + l]`. -/
def Weights : Type := Fin 3 → Fin 6 → ℝ

/-- `uij[q] = Σ_l ucc[NPOLY*q + l] * phi[l]` at an interior node. -/
def reconstructVol (ucc : Weights) (ic jc : Fin 3) : Fin 3 → ℝ :=
  fun q => ∑ l, ucc q l * phiVol l ic jc

/-- Reconstruction at a face with `phil`. -/
def reconstructFaceL (u : Weights) (node : Fin 3) : Fin 3 → ℝ :=
  fun q => ∑ l, u q l * phiFaceL l node

/-- Reconstruction at a face with `phir`. -/
def reconstructFaceR (u : Weights) (node : Fin 3) : Fin 3 → ℝ :=
  fun q => ∑ l, u q l * phiFaceR l node

/-- The cell geometry of one zone of `cbdisodg_2d_advance_rk`:
`xl = patch_xl + i·dx`, `xc`, `xr` and likewise in y. -/
structure ZoneGeom where
  xl : ℝ
  xc : ℝ
  xr : ℝ
  yl : ℝ
  yc : ℝ
  yr : ℝ
  dx : ℝ
  dy : ℝ

/-- The volume term of `cbdisodg_2d_advance_rk`:
`Σ_{ic,jc} w[ic] w[jc] (flux_x[q] dphidx[l] dx + flux_y[q] dphidy[l] dy)`
with fluxes evaluated from the modal reconstruction at the interior node
(the buffer and point-mass `cons_dot` contribution is commented out in the
source and hence absent here). -/
def volume_term (geo : ZoneGeom) (cs2 mach2 : ℝ) (eos_type : ℕ)
    (masses : PointMass × PointMass) (velocity_ceiling : ℝ) (ucc : Weights)
    (q : Fin 3) (l : Fin 6) : ℝ :=
  ∑ ic, ∑ jc,
    (let xp := geo.xc + 0.5 * gauss_nodes ic * geo.dx
     let yp := geo.yc + 0.5 * gauss_nodes jc * geo.dy
     let cs2p := sound_speed_squared cs2 mach2 eos_type xp yp masses
     let uij := reconstructVol ucc ic jc
     let pij := conserved_to_primitive uij velocity_ceiling
     let flux_x := primitive_to_flux pij uij cs2p 0
     let flux_y := primitive_to_flux pij uij cs2p 1
     gauss_weights_1d ic * gauss_weights_1d jc *
       (flux_x q * dphidxVol l ic jc * geo.dx + flux_y q * dphidyVol l ic jc * geo.dy))

/-- The Godunov flux at node `jp` of the left x-face: minus side is the right
trace of zone `i-1`, plus side the left trace of this zone. -/
def left_face_flux (geo : ZoneGeom) (cs2 mach2 : ℝ) (eos_type : ℕ)
    (masses : PointMass × PointMass) (velocity_ceiling : ℝ) (ucc uli : Weights)
    (jp : Fin 3) : Fin 3 → ℝ :=
  let yp := geo.yc + 0.5 * gauss_nodes jp * geo.dy
  let cs2p := sound_speed_squared cs2 mach2 eos_type geo.xl yp masses
  riemann_hlle (reconstructFaceR uli jp) (reconstructFaceL ucc jp) cs2p velocity_ceiling 0

/-- The Godunov flux at node `jp` of the right x-face. -/
def right_face_flux (geo : ZoneGeom) (cs2 mach2 : ℝ) (eos_type : ℕ)
    (masses : PointMass × PointMass) (velocity_ceiling : ℝ) (ucc uri : Weights)
    (jp : Fin 3) : Fin 3 → ℝ :=
  let yp := geo.yc + 0.5 * gauss_nodes jp * geo.dy
  let cs2p := sound_speed_squared cs2 mach2 eos_type geo.xr yp masses
  riemann_hlle (reconstructFaceR ucc jp) (reconstructFaceL uri jp) cs2p velocity_ceiling 0

/-- The Godunov flux at node `ip` of the bottom y-face. -/
def bottom_face_flux (geo : ZoneGeom) (cs2 mach2 : ℝ) (eos_type : ℕ)
    (masses : PointMass × PointMass) (velocity_ceiling : ℝ) (ucc ulj : Weights)
    (ip : Fin 3) : Fin 3 → ℝ :=
  let xp := geo.xc + 0.5 * gauss_nodes ip * geo.dx
  let cs2p := sound_speed_squared cs2 mach2 eos_type xp geo.yl masses
  riemann_hlle (reconstructFaceR ulj ip) (reconstructFaceL ucc ip) cs2p velocity_ceiling 1

/-- The Godunov flux at node `ip` of the top y-face. -/
def top_face_flux (geo : ZoneGeom) (cs2 mach2 : ℝ) (eos_type : ℕ)
    (masses : PointMass × PointMass) (velocity_ceiling : ℝ) (ucc urj : Weights)
    (ip : Fin 3) : Fin 3 → ℝ :=
  let xp := geo.xc + 0.5 * gauss_nodes ip * geo.dx
  let cs2p := sound_speed_squared cs2 mach2 eos_type xp geo.yr masses
  riemann_hlle (reconstructFaceR ucc ip) (reconstructFaceL urj ip) cs2p velocity_ceiling 1

/-- The surface term of `cbdisodg_2d_advance_rk`: the four face loops, each
accumulating `-= flux[q] * nhat * phi[l] * w[node] * (dx | dy)` with
`nhat[0] = -1` for the left/bottom faces and `nhat[1] = 1` for the
right/top faces (the x-face loops scale by `dx` and the y-face loops by `dy`,
exactly as in the source). -/
def surface_term (geo : ZoneGeom) (cs2 mach2 : ℝ) (eos_type : ℕ)
    (masses : PointMass × PointMass) (velocity_ceiling : ℝ)
    (ucc uli uri ulj urj : Weights) (q : Fin 3) (l : Fin 6) : ℝ :=
  (∑ jp, -(left_face_flux geo cs2 mach2 eos_type masses velocity_ceiling ucc uli jp q
      * (-1) * phiFaceL l jp * gauss_weights_1d jp * geo.dx))
  + (∑ jp, -(right_face_flux geo cs2 mach2 eos_type masses velocity_ceiling ucc uri jp q
      * 1 * phiFaceR l jp * gauss_weights_1d jp * geo.dx))
  + (∑ ip, -(bottom_face_flux geo cs2 mach2 eos_type masses velocity_ceiling ucc ulj ip q
      * (-1) * phiFaceL l ip * gauss_weights_1d ip * geo.dy))
  + (∑ ip, -(top_face_flux geo cs2 mach2 eos_type masses velocity_ceiling ucc urj ip q
      * 1 * phiFaceR l ip * gauss_weights_1d ip * geo.dy))

/-- The per-zone weight update of `cbdisodg_2d_advance_rk`: the final loop is
`for (int l = 0; l < 1; ++l)`, so only the cell-average weight `n = q*NPOLY`
is written, as
`w2[n] = w1[n] + 0.5 * (surface_term[n] + volume_term[n]) * dt / (dx * dy)`
followed by `w2[n] = (1 - rk_param) * w2[n] + rk_param * w0[n]`; every other
entry of the `weights2` output buffer keeps its previous value. -/
def advance_rk_zone (geo : ZoneGeom) (cs2 mach2 : ℝ) (eos_type : ℕ)
    (masses : PointMass × PointMass) (rk_param dt velocity_ceiling : ℝ)
    (w0 ucc uli uri ulj urj w2prev : Weights) : Weights :=
  fun q l =>
    if l = 0 then
      (1 - rk_param) *
        (ucc q 0 + 0.5 *
          (surface_term geo cs2 mach2 eos_type masses velocity_ceiling ucc uli uri ulj urj q 0
            + volume_term geo cs2 mach2 eos_type masses velocity_ceiling ucc q 0)
          * dt / (geo.dx * geo.dy))
        + rk_param * w0 q 0
    else w2prev q l

end cbdisodg

/-- Modelled from the claim text (C1): gravitational force `(f_x, f_y) =
-g (dx, dy)` with magnitude `g = Σ · M · (r² + r_s²)^(−3/2)`. -/
def pointMassForceClaimed (sigma mass rs dx dy : ℝ) : ℝ × ℝ :=
  let g := sigma * mass * (dx * dx + dy * dy + rs * rs) ^ (-(3 : ℝ) / 2)
  (-g * dx, -g * dy)

/-- Modelled from the claim text (C5): the Keplerian buffer update
`U ← U − (U − U₀) · rate · Δt` with `rate = driving_rate · ω_outer · ramp(r)`,
`ω_outer = sqrt(M_c / r_onset³)` and the LINEAR ramp
`(r − r_onset)/(r_outer − r_onset)`, applied when `r > r_outer − onset_width`. -/
def keplerianBufferClaimedUpdate (b : KeplerianBuffer) (xc yc dt : ℝ)
    (cons : iso2d.Cons) : iso2d.Cons :=
  let rc := Real.sqrt (xc * xc + yc * yc)
  let onset_radius := b.outer_radius - b.onset_width
  if rc > onset_radius then
    let pf := b.surface_density * Real.sqrt (b.central_mass / rc)
    let px := pf * (-yc / rc)
    let py := pf * (xc / rc)
    let omega_outer := Real.sqrt (b.central_mass / onset_radius ^ 3)
    let ramp := (rc - onset_radius) / (b.outer_radius - onset_radius)
    let rate := b.driving_rate * omega_outer * ramp
    ⟨cons.sigma - (cons.sigma - b.surface_density) * rate * dt,
     cons.px - (cons.px - px) * rate * dt,
     cons.py - (cons.py - py) * rate * dt⟩
  else cons

namespace cbdisodg

/-- Modelled from the claim text (C7): the per-zone DG update
`w_new = w_old + (surface + volume) · Δt / (dx · dy)` applied to EVERY modal
weight `l`, followed by the RK convex combination with the checkpointed
weights. -/
def advance_rk_zone_claimed (geo : ZoneGeom) (cs2 mach2 : ℝ) (eos_type : ℕ)
    (masses : PointMass × PointMass) (rk_param dt velocity_ceiling : ℝ)
    (w0 ucc uli uri ulj urj : Weights) : Weights :=
  fun q l =>
    (1 - rk_param) *
      (ucc q l +
        (surface_term geo cs2 mach2 eos_type masses velocity_ceiling ucc uli uri ulj urj q l
          + volume_term geo cs2 mach2 eos_type masses velocity_ceiling ucc q l)
        * dt / (geo.dx * geo.dy))
      + rk_param * w0 q l

/-- A concrete unit cell for evaluating the DG update. -/
def testGeom : ZoneGeom := ⟨0, 0.5, 1, 0, 0.5, 1, 1, 1⟩

/-- A disabled point mass. -/
def zeroMass : PointMass := ⟨0, 0, 0, 0, 0, 0, 0, 0, 0⟩

/-- The two-mass list with both masses disabled. -/
def testMasses : PointMass × PointMass := (zeroMass, zeroMass)

/-- Modal weights of a uniform zone: density average 1, all other weights 0. -/
def wOne : Weights := fun q l => if q = 0 ∧ l = 0 then 1 else 0

/-- Modal weights of a denser uniform zone: density average 3. -/
def wThree : Weights := fun q l => if q = 0 ∧ l = 0 then 3 else 0

/-- The zero modal weights. -/
def wZero : Weights := fun _ _ => 0

/-- The conserved state `(3, 0, 0)`. -/
def stThree : Fin 3 → ℝ := fun q => match q with | 0 => 3 | 1 => 0 | 2 => 0

/-- The conserved state `(1, 0, 0)`. -/
def stOne : Fin 3 → ℝ := fun q => match q with | 0 => 1 | 1 => 0 | 2 => 0

/-- The flux `(1, 2, 0)` of the `(3,0,0) | (1,0,0)` x-face Riemann problem at
`cs² = 1`. -/
def fluxThreeOne : Fin 3 → ℝ := fun q => match q with | 0 => 1 | 1 => 2 | 2 => 0

/-- The flux `(0, 1, 0)` of the uniform `(1,0,0)` x-face Riemann problem. -/
def fluxOneX : Fin 3 → ℝ := fun q => match q with | 0 => 0 | 1 => 1 | 2 => 0

/-- The flux `(0, 0, 1)` of the uniform `(1,0,0)` y-face Riemann problem. -/
def fluxOneY : Fin 3 → ℝ := fun q => match q with | 0 => 0 | 1 => 0 | 2 => 1

end cbdisodg

/-- A concrete srhd_1d conserved state, the forward conversion of
`(ρ, u¹, p, s) = (1, 0, 1, 0)` with `dv = 1`. -/
def srhdTestCons : Fin 4 → ℝ := fun q => match q with
  | 0 => 1
  | 1 => 0
  | 2 => 3
  | 3 => 0

/-! ## Theorems -/

theorem csign_abs (x : ℝ) : |csign x| = 1 := by
  unfold csign
  split <;> norm_num

theorem csign_mul_abs (x : ℝ) : csign x * |x| = x := by
  unfold csign
  split
  · rw [abs_of_neg (by assumption)]; ring
  · rw [abs_of_nonneg (by linarith [not_lt.mp (by assumption)])]; ring

/-- C9: for all inputs `(yl, y0, yr)` the PLM slope limiter of every solver
returns `0.25 · |sign a + sign b| · (sign a + sign c) · min(|a|,|b|,|c|)` with
`a = θ(y0−yl)`, `b = (yr−yl)/2`, `c = θ(yr−y0)` (θ = 1.5 in iso2d/euler2d,
2.0 in srhd_1d); in particular `plm_gradient(y,y,y) = 0`, and inputs whose
differences do not share a consistent sign pattern (`a·b < 0` or `a·c < 0`)
give 0. -/
theorem C9_plm_gradient :
    (∀ yl y0 yr, iso2d.plm_gradient_scalar yl y0 yr = plmGradientTheta 1.5 yl y0 yr) ∧
    (∀ yl y0 yr, euler2d.plm_gradient_scalar yl y0 yr = plmGradientTheta 1.5 yl y0 yr) ∧
    (∀ yl y0 yr, srhd1d.plm_gradient_scalar yl y0 yr = plmGradientTheta 2 yl y0 yr) ∧
    (∀ theta yl y0 yr,
      plmGradientTheta theta yl y0 yr =
        0.25 * |csign (theta * (y0 - yl)) + csign ((yr - yl) / 2)|
          * (csign (theta * (y0 - yl)) + csign (theta * (yr - y0)))
          * min |theta * (y0 - yl)| (min |(yr - yl) / 2| |theta * (yr - y0)|)) ∧
    (∀ theta y, plmGradientTheta theta y y y = 0) ∧
    (∀ theta yl y0 yr,
      (y0 - yl) * theta * ((yr - yl) * 0.5) < 0 ∨
        (y0 - yl) * theta * ((yr - y0) * theta) < 0 →
      plmGradientTheta theta yl y0 yr = 0) := by
  refine ⟨fun yl y0 yr => rfl, fun yl y0 yr => rfl, fun yl y0 yr => rfl, ?_, ?_, ?_⟩
  · intro theta yl y0 yr
    unfold plmGradientTheta
    rw [mul_comm (y0 - yl) theta, mul_comm (yr - y0) theta,
      show (yr - yl) * 0.5 = (yr - yl) / 2 by ring]
  · intro theta y
    unfold plmGradientTheta
    simp
  · intro theta yl y0 yr h
    unfold plmGradientTheta
    rcases h with h | h
    · have hz : csign ((y0 - yl) * theta) + csign ((yr - yl) * 0.5) = 0 := by
        rcases mul_neg_iff.mp h with ⟨ha, hb⟩ | ⟨ha, hb⟩
        · unfold csign
          rw [if_neg (not_lt.mpr ha.le), if_pos hb]
          ring
        · unfold csign
          rw [if_pos ha, if_neg (not_lt.mpr hb.le)]
          ring
      simp [hz]
    · have hz : csign ((y0 - yl) * theta) + csign ((yr - y0) * theta) = 0 := by
        rcases mul_neg_iff.mp h with ⟨ha, hb⟩ | ⟨ha, hb⟩
        · unfold csign
          rw [if_neg (not_lt.mpr ha.le), if_pos hb]
          ring
        · unfold csign
          rw [if_pos ha, if_neg (not_lt.mpr hb.le)]
          ring
      simp [hz]

theorem C9_plm_witness : plmGradientTheta 1 0 1 0 = 0 :=
  C9_plm_gradient.2.2.2.2.2 1 0 1 0 (Or.inr (by norm_num))

/-- C10: in the iso2d and euler2d `riemann_hlle` the chosen signal speeds
always satisfy `am ≤ 0 ≤ ap` (because of the extra zero arguments in
`min3`/`max3`), and whenever the interface sound speed squared is strictly
positive, `ap − am > 0`, so the division `/(ap − am)` defining the HLLE flux
is never a division by zero. -/
theorem C10_hlle_signal_speeds :
    (∀ pl pr cs2 d, iso2d.hlle_am pl pr cs2 d ≤ 0 ∧ 0 ≤ iso2d.hlle_ap pl pr cs2 d) ∧
    (∀ pl pr cs2 d, 0 < cs2 →
      0 < iso2d.hlle_ap pl pr cs2 d - iso2d.hlle_am pl pr cs2 d ∧
      iso2d.hlle_ap pl pr cs2 d - iso2d.hlle_am pl pr cs2 d ≠ 0) ∧
    (∀ pl pr cs2 d, euler2d.hlle_am pl pr cs2 d ≤ 0 ∧ 0 ≤ euler2d.hlle_ap pl pr cs2 d) ∧
    (∀ pl pr cs2 d, 0 < cs2 →
      0 < euler2d.hlle_ap pl pr cs2 d - euler2d.hlle_am pl pr cs2 d ∧
      euler2d.hlle_ap pl pr cs2 d - euler2d.hlle_am pl pr cs2 d ≠ 0) := by
  refine ⟨fun pl pr cs2 d => ⟨min_le_left _ _, le_max_left _ _⟩, ?_,
    fun pl pr cs2 d => ⟨min_le_left _ _, le_max_left _ _⟩, ?_⟩
  · intro pl pr cs2 d h
    have hcs : 0 < Real.sqrt cs2 := Real.sqrt_pos.mpr h
    have h1 : iso2d.hlle_am pl pr cs2 d ≤ iso2d.primitive_to_velocity pl d - Real.sqrt cs2 :=
      le_trans (min_le_right _ _) (min_le_left _ _)
    have h2 : iso2d.primitive_to_velocity pl d + Real.sqrt cs2 ≤ iso2d.hlle_ap pl pr cs2 d :=
      le_trans (le_max_left _ _) (le_max_right _ _)
    constructor
    · linarith
    · intro hc
      linarith
  · intro pl pr cs2 d h
    have hcs : 0 < Real.sqrt cs2 := Real.sqrt_pos.mpr h
    have h1 : euler2d.hlle_am pl pr cs2 d ≤ euler2d.primitive_to_velocity pl d - Real.sqrt cs2 :=
      le_trans (min_le_right _ _) (min_le_left _ _)
    have h2 : euler2d.primitive_to_velocity pl d + Real.sqrt cs2 ≤ euler2d.hlle_ap pl pr cs2 d :=
      le_trans (le_max_left _ _) (le_max_right _ _)
    constructor
    · linarith
    · intro hc
      linarith

theorem C10_hlle_witness :
    0 < iso2d.hlle_ap ⟨1, 0, 0⟩ ⟨1, 0, 0⟩ 1 0 - iso2d.hlle_am ⟨1, 0, 0⟩ ⟨1, 0, 0⟩ 1 0 ∧
    0 < euler2d.hlle_ap ⟨1, 0, 0, 1⟩ ⟨1, 0, 0, 1⟩ 1 0
      - euler2d.hlle_am ⟨1, 0, 0, 1⟩ ⟨1, 0, 0, 1⟩ 1 0 :=
  ⟨(C10_hlle_signal_speeds.2.1 _ _ _ _ (by norm_num)).1,
   (C10_hlle_signal_speeds.2.2.2 _ _ _ _ (by norm_num)).1⟩

/-- C8: for every zone, `srhd_1d_max_wavespeeds` writes
`max(|λ-|, |λ+|)` computed from the zone's primitive state WITHOUT the radial
boost: the boosted primitive is computed but its wavespeeds are overwritten by
the unboosted estimate, so the stored wavespeed is identical for every value
of the `adot` argument. -/
theorem C8_max_wavespeeds (p : srhd1d.Prim) (x0 x1 adot adot2 : ℝ) :
    srhd1d.max_wavespeed_zone p x0 x1 adot =
      max |(srhd1d.primitive_to_outer_wavespeeds p).1|
          |(srhd1d.primitive_to_outer_wavespeeds p).2| ∧
    srhd1d.max_wavespeed_zone p x0 x1 adot = srhd1d.max_wavespeed_zone p x0 x1 adot2 :=
  ⟨rfl, rfl⟩

/-- C4 (amended): for every conserved input, euler2d `conserved_to_primitive`
returns a primitive state with `Σ ≥ density_floor`, `p ≥ pressure_floor` and
EACH velocity component bounded: `|vx| ≤ velocity_ceiling` and
`|vy| ≤ velocity_ceiling` (so the magnitude can only be bounded by
`√2 · velocity_ceiling`, not by `velocity_ceiling`); every zone written by
euler2d `advance_rk` passes through this conversion (`mod.c` lines 614, 719),
so the written zones satisfy the same bounds. -/
theorem C4_conserved_floors (u : euler2d.Cons) (vc df pf : ℝ) (hvc : 0 ≤ vc) :
    df ≤ (euler2d.conserved_to_primitive u vc df pf).sigma ∧
    pf ≤ (euler2d.conserved_to_primitive u vc df pf).pres ∧
    |(euler2d.conserved_to_primitive u vc df pf).vx| ≤ vc ∧
    |(euler2d.conserved_to_primitive u vc df pf).vy| ≤ vc := by
  unfold euler2d.conserved_to_primitive
  refine ⟨le_max_right _ _, le_max_right _ _, ?_, ?_⟩
  · rw [abs_mul, csign_abs, one_mul,
      abs_of_nonneg (le_min (abs_nonneg _) hvc)]
    exact min_le_right _ _
  · rw [abs_mul, csign_abs, one_mul,
      abs_of_nonneg (le_min (abs_nonneg _) hvc)]
    exact min_le_right _ _

theorem C4_floors_witness :
    (1 : ℝ) / 2 ≤ (euler2d.conserved_to_primitive ⟨1, 1, 1, 10⟩ 1 (1/2) (1/100)).sigma ∧
    (1 : ℝ) / 100 ≤ (euler2d.conserved_to_primitive ⟨1, 1, 1, 10⟩ 1 (1/2) (1/100)).pres ∧
    |(euler2d.conserved_to_primitive ⟨1, 1, 1, 10⟩ 1 (1/2) (1/100)).vx| ≤ 1 ∧
    |(euler2d.conserved_to_primitive ⟨1, 1, 1, 10⟩ 1 (1/2) (1/100)).vy| ≤ 1 :=
  C4_conserved_floors ⟨1, 1, 1, 10⟩ 1 (1/2) (1/100) (by norm_num)

/-- C4 (counterexample): at the conserved state `(Σ, px, py, E) = (1, 1, 1, 10)`
with `velocity_ceiling = 1`, `density_floor = 1/2`, `pressure_floor = 1/100`,
the recovered velocity is `(1, 1)` whose magnitude `√2` exceeds the
velocity ceiling 1, refuting the claim `|v| ≤ velocity_ceiling`. -/
theorem C4_counterexample :
    ¬ (Real.sqrt ((euler2d.conserved_to_primitive ⟨1, 1, 1, 10⟩ 1 (1/2) (1/100)).vx ^ 2
        + (euler2d.conserved_to_primitive ⟨1, 1, 1, 10⟩ 1 (1/2) (1/100)).vy ^ 2) ≤ 1) := by
  have hvx : (euler2d.conserved_to_primitive ⟨1, 1, 1, 10⟩ 1 (1/2) (1/100)).vx = 1 := by
    unfold euler2d.conserved_to_primitive csign
    norm_num
  have hvy : (euler2d.conserved_to_primitive ⟨1, 1, 1, 10⟩ 1 (1/2) (1/100)).vy = 1 := by
    unfold euler2d.conserved_to_primitive csign
    norm_num
  rw [hvx, hvy, not_le, show (1:ℝ)^2 + 1^2 = 2 by norm_num]
  rw [show (1:ℝ) = Real.sqrt 1 from (Real.sqrt_one).symm]
  exact Real.sqrt_lt_sqrt (by norm_num) (by norm_num)

/-- C1 (amended): only cbdisodg_2d applies the claimed softened force
`(f_x, f_y) = -g (dx, dy)` with `g = Σ·M·(r² + r_s²)^(-3/2)` — equivalently
`Σ·M/√((r²+r_s²)³)` for `r² + r_s² > 0` — which is well defined at `r = 0`
(it evaluates to `(0, 0)` there).  iso2d and euler2d instead apply
`-(Σ·M/(r² + r_s²))·(dx/r, dy/r)` (euler2d with `r_s = h/2`), which divides
by the raw distance `r = √(dx² + dy²)`; iso2d's `delta_cons` momentum rows
are `dt` times that force. -/
theorem C1_point_mass_force :
    (∀ (m : cbdisodg.PointMass) (x1 y1 sigma : ℝ),
      cbdisodg.grav_force m x1 y1 sigma =
        pointMassForceClaimed sigma m.mass m.softening_length (x1 - m.x) (y1 - m.y)) ∧
    (∀ sigma mass rs dx dy : ℝ, 0 < dx * dx + dy * dy + rs * rs →
      sigma * mass * (dx * dx + dy * dy + rs * rs) ^ (-(3:ℝ)/2)
        = sigma * mass / Real.sqrt ((dx * dx + dy * dy + rs * rs) ^ 3)) ∧
    (∀ (m : cbdisodg.PointMass) (sigma : ℝ),
      cbdisodg.grav_force m m.x m.y sigma = (0, 0)) ∧
    (∀ (m : PointMass) (x1 y1 sigma : ℝ),
      iso2d.grav_force m x1 y1 sigma =
        (-(sigma * m.mass / ((x1 - m.x) * (x1 - m.x) + (y1 - m.y) * (y1 - m.y)
            + m.radius * m.radius)) * (x1 - m.x)
          / Real.sqrt ((x1 - m.x) * (x1 - m.x) + (y1 - m.y) * (y1 - m.y)),
         -(sigma * m.mass / ((x1 - m.x) * (x1 - m.x) + (y1 - m.y) * (y1 - m.y)
            + m.radius * m.radius)) * (y1 - m.y)
          / Real.sqrt ((x1 - m.x) * (x1 - m.x) + (y1 - m.y) * (y1 - m.y)))) ∧
    (∀ (m : PointMass) (x1 y1 sigma h : ℝ),
      euler2d.grav_force m x1 y1 sigma h =
        (-(sigma * m.mass / ((x1 - m.x) * (x1 - m.x) + (y1 - m.y) * (y1 - m.y)
            + (0.5 * h) * (0.5 * h))) * (x1 - m.x)
          / Real.sqrt ((x1 - m.x) * (x1 - m.x) + (y1 - m.y) * (y1 - m.y)),
         -(sigma * m.mass / ((x1 - m.x) * (x1 - m.x) + (y1 - m.y) * (y1 - m.y)
            + (0.5 * h) * (0.5 * h))) * (y1 - m.y)
          / Real.sqrt ((x1 - m.x) * (x1 - m.x) + (y1 - m.y) * (y1 - m.y)))) ∧
    (∀ (m : PointMass) (x1 y1 dt sigma : ℝ),
      (iso2d.point_mass_source_term m x1 y1 dt sigma).px
          = dt * (iso2d.grav_force m x1 y1 sigma).1 ∧
      (iso2d.point_mass_source_term m x1 y1 dt sigma).py
          = dt * (iso2d.grav_force m x1 y1 sigma).2) := by
  refine ⟨?_, ?_, ?_, fun m x1 y1 sigma => rfl, fun m x1 y1 sigma h => rfl,
    fun m x1 y1 dt sigma => ⟨rfl, rfl⟩⟩
  · intro m x1 y1 sigma
    unfold cbdisodg.grav_force pointMassForceClaimed
    norm_num
  · intro sigma mass rs dx dy hx
    rw [show (-(3:ℝ)/2) = -((3:ℝ)/2) by norm_num, Real.rpow_neg hx.le,
      show ((3:ℝ)/2) = 1 + 1/2 by norm_num, Real.rpow_add hx, Real.rpow_one,
      ← Real.sqrt_eq_rpow,
      show (dx * dx + dy * dy + rs * rs) ^ 3
        = (dx * dx + dy * dy + rs * rs) ^ 2 * (dx * dx + dy * dy + rs * rs) by ring,
      Real.sqrt_mul (sq_nonneg _), Real.sqrt_sq hx.le, div_eq_mul_inv]
  · intro m sigma
    unfold cbdisodg.grav_force
    simp

theorem C1_force_witness :
    (1:ℝ) * 1 * ((0:ℝ) * 0 + 0 * 0 + 1 * 1) ^ (-(3:ℝ)/2)
      = 1 * 1 / Real.sqrt (((0:ℝ) * 0 + 0 * 0 + 1 * 1) ^ 3) :=
  C1_point_mass_force.2.1 1 1 1 0 0 (by norm_num)

/-- C1 (counterexample): at the point mass `(x₀,y₀) = (0,0)`, `M = 1`,
`r_s = 1`, zone centre `(3, 4)` (`r = 5`), `Σ = 1`, `dt = 1`, the iso2d
momentum source is `-3/130` while the claimed force gives
`-3·26^(-3/2) = -3/(26 √26)`; they differ because `√26 ≠ 5`. -/
theorem C1_counterexample :
    (iso2d.point_mass_source_term ⟨0, 0, 0, 0, 1, 1, 0, 0⟩ 3 4 1 1).px ≠
      1 * (pointMassForceClaimed 1 1 1 3 4).1 := by
  have h5 : Real.sqrt 25 = 5 := by
    rw [show (25:ℝ) = 5^2 by norm_num, Real.sqrt_sq (by norm_num : (0:ℝ) ≤ 5)]
  have h26 : (26:ℝ) ^ (-((3:ℝ)/2)) = (26 * Real.sqrt 26)⁻¹ := by
    rw [Real.rpow_neg (by norm_num : (0:ℝ) ≤ 26),
      show ((3:ℝ)/2) = 1 + 1/2 by norm_num,
      Real.rpow_add (by norm_num : (0:ℝ) < 26), Real.rpow_one, ← Real.sqrt_eq_rpow]
  have hL : (iso2d.point_mass_source_term ⟨0, 0, 0, 0, 1, 1, 0, 0⟩ 3 4 1 1).px
      = -3 / 130 := by
    unfold iso2d.point_mass_source_term iso2d.grav_force
    norm_num [h5]
  have hR : (1:ℝ) * (pointMassForceClaimed 1 1 1 3 4).1 = -3 * (26 * Real.sqrt 26)⁻¹ := by
    have hne26 : Real.sqrt 26 ≠ 0 := ne_of_gt (Real.sqrt_pos.mpr (by norm_num))
    unfold pointMassForceClaimed
    norm_num
    rw [h26]
    field_simp
    ring
  rw [hL, hR]
  intro heq
  have hpos : 0 < Real.sqrt 26 := Real.sqrt_pos.mpr (by norm_num)
  have hne : (26:ℝ) * Real.sqrt 26 ≠ 0 := by positivity
  have hsqrt : Real.sqrt 26 = 5 := by
    field_simp at heq
    nlinarith [heq, hpos]
  have h26' : (26:ℝ) = 25 := by
    have hsq := Real.sq_sqrt (by norm_num : (0:ℝ) ≤ 26)
    rw [hsqrt] at hsq
    norm_num at hsq
  norm_num at h26'

/-- Face reconstruction of the zone with density average 3 through `phir`. -/
theorem dg_reconR_wThree (jp : Fin 3) :
    cbdisodg.reconstructFaceR cbdisodg.wThree jp = cbdisodg.stThree := by
  funext q
  fin_cases q <;>
    simp [cbdisodg.reconstructFaceR, cbdisodg.wThree, cbdisodg.phiFaceR, cbdisodg.pfr,
      cbdisodg.polyM, cbdisodg.polyN, cbdisodg.legP, Fin.sum_univ_six, cbdisodg.stThree]

/-- Face reconstruction of the unit-density zone through `phir`. -/
theorem dg_reconR_wOne (jp : Fin 3) :
    cbdisodg.reconstructFaceR cbdisodg.wOne jp = cbdisodg.stOne := by
  funext q
  fin_cases q <;>
    simp [cbdisodg.reconstructFaceR, cbdisodg.wOne, cbdisodg.phiFaceR, cbdisodg.pfr,
      cbdisodg.polyM, cbdisodg.polyN, cbdisodg.legP, Fin.sum_univ_six, cbdisodg.stOne]

/-- Face reconstruction of the unit-density zone through `phil`. -/
theorem dg_reconL_wOne (jp : Fin 3) :
    cbdisodg.reconstructFaceL cbdisodg.wOne jp = cbdisodg.stOne := by
  funext q
  fin_cases q <;>
    simp [cbdisodg.reconstructFaceL, cbdisodg.wOne, cbdisodg.phiFaceL, cbdisodg.pfl,
      cbdisodg.polyM, cbdisodg.polyN, cbdisodg.legP, Fin.sum_univ_six, cbdisodg.stOne]

/-- The DG HLLE flux of the `(3,0,0) | (1,0,0)` x-face problem at `cs² = 1`. -/
theorem dg_riemann_31 :
    cbdisodg.riemann_hlle cbdisodg.stThree cbdisodg.stOne 1 1 0 = cbdisodg.fluxThreeOne := by
  funext q
  fin_cases q <;>
    (simp [cbdisodg.riemann_hlle, cbdisodg.conserved_to_primitive, cbdisodg.primitive_to_flux,
      cbdisodg.primitive_to_velocity, cbdisodg.primitive_to_outer_wavespeeds, csign,
      cbdisodg.stThree, cbdisodg.stOne, cbdisodg.fluxThreeOne, Real.sqrt_one,
      min_def, max_def] <;> norm_num)

/-- The DG HLLE flux of the uniform `(1,0,0)` x-face problem at `cs² = 1`. -/
theorem dg_riemann_11x :
    cbdisodg.riemann_hlle cbdisodg.stOne cbdisodg.stOne 1 1 0 = cbdisodg.fluxOneX := by
  funext q
  fin_cases q <;>
    simp [cbdisodg.riemann_hlle, cbdisodg.conserved_to_primitive, cbdisodg.primitive_to_flux,
      cbdisodg.primitive_to_velocity, cbdisodg.primitive_to_outer_wavespeeds, csign,
      cbdisodg.stOne, cbdisodg.fluxOneX, Real.sqrt_one, min_def, max_def]

/-- The DG HLLE flux of the uniform `(1,0,0)` y-face problem at `cs² = 1`. -/
theorem dg_riemann_11y :
    cbdisodg.riemann_hlle cbdisodg.stOne cbdisodg.stOne 1 1 1 = cbdisodg.fluxOneY := by
  funext q
  fin_cases q <;>
    simp [cbdisodg.riemann_hlle, cbdisodg.conserved_to_primitive, cbdisodg.primitive_to_flux,
      cbdisodg.primitive_to_velocity, cbdisodg.primitive_to_outer_wavespeeds, csign,
      cbdisodg.stOne, cbdisodg.fluxOneY, Real.sqrt_one, min_def, max_def]

/-- Left-face Godunov fluxes in the test configuration. -/
theorem dg_left_eval (jp : Fin 3) :
    cbdisodg.left_face_flux cbdisodg.testGeom 1 1 1 cbdisodg.testMasses 1
      cbdisodg.wOne cbdisodg.wThree jp = cbdisodg.fluxThreeOne := by
  unfold cbdisodg.left_face_flux
  rw [dg_reconR_wThree, dg_reconL_wOne]
  exact dg_riemann_31

/-- Right-face Godunov fluxes in the test configuration. -/
theorem dg_right_eval (jp : Fin 3) :
    cbdisodg.right_face_flux cbdisodg.testGeom 1 1 1 cbdisodg.testMasses 1
      cbdisodg.wOne cbdisodg.wOne jp = cbdisodg.fluxOneX := by
  unfold cbdisodg.right_face_flux
  rw [dg_reconR_wOne, dg_reconL_wOne]
  exact dg_riemann_11x

/-- Bottom-face Godunov fluxes in the test configuration. -/
theorem dg_bottom_eval (ip : Fin 3) :
    cbdisodg.bottom_face_flux cbdisodg.testGeom 1 1 1 cbdisodg.testMasses 1
      cbdisodg.wOne cbdisodg.wOne ip = cbdisodg.fluxOneY := by
  unfold cbdisodg.bottom_face_flux
  rw [dg_reconR_wOne, dg_reconL_wOne]
  exact dg_riemann_11y

/-- Top-face Godunov fluxes in the test configuration. -/
theorem dg_top_eval (ip : Fin 3) :
    cbdisodg.top_face_flux cbdisodg.testGeom 1 1 1 cbdisodg.testMasses 1
      cbdisodg.wOne cbdisodg.wOne ip = cbdisodg.fluxOneY := by
  unfold cbdisodg.top_face_flux
  rw [dg_reconR_wOne, dg_reconL_wOne]
  exact dg_riemann_11y

/-- The cell-average surface term of the test configuration is the (inexact)
sum of the three tabulated Gauss weights. -/
theorem dg_surface_eval :
    cbdisodg.surface_term cbdisodg.testGeom 1 1 1 cbdisodg.testMasses 1
      cbdisodg.wOne cbdisodg.wThree cbdisodg.wOne cbdisodg.wOne cbdisodg.wOne 0 0
      = 2.000000000000001 := by
  unfold cbdisodg.surface_term
  simp only [dg_left_eval, dg_right_eval, dg_bottom_eval, dg_top_eval]
  simp [Fin.sum_univ_three, cbdisodg.fluxThreeOne, cbdisodg.fluxOneX, cbdisodg.fluxOneY,
    cbdisodg.phiFaceL, cbdisodg.phiFaceR, cbdisodg.pfl, cbdisodg.pfr, cbdisodg.polyM,
    cbdisodg.polyN, cbdisodg.legP, cbdisodg.gauss_weights_1d, cbdisodg.testGeom]
  norm_num

/-- The cell-average volume term of the test configuration vanishes (the
basis gradient of `φ₀` is zero). -/
theorem dg_volume_eval :
    cbdisodg.volume_term cbdisodg.testGeom 1 1 1 cbdisodg.testMasses 1
      cbdisodg.wOne 0 0 = 0 := by
  unfold cbdisodg.volume_term
  simp [cbdisodg.dphidxVol, cbdisodg.dphidyVol, cbdisodg.polyM, cbdisodg.polyN,
    cbdisodg.legPP]

/-- C7 (amended): each RK substep of the full `cbdisodg_2d_advance_rk`
updates, for each conserved field, ONLY the cell-average weight `l = 0`
(its final loop is `for (int l = 0; l < 1; ++l)`), as
`w_new = w_old + 0.5·(surface + volume)·Δt/(dx·dy)` — with a factor 0.5 the
claim omits — followed by the RK convex combination with the checkpointed
weights; the higher-order weights keep their previous values in the output
buffer.  (The safe variant's update loop, by contrast, ranges over all six
weights, but that routine does not compile: uninitialized `for (int i_quad;`
loops and the undeclared identifier `face_area`.) -/
theorem C7_dg_update (geo : cbdisodg.ZoneGeom) (cs2 mach2 : ℝ) (eos_type : ℕ)
    (masses : cbdisodg.PointMass × cbdisodg.PointMass) (rk_param dt vceil : ℝ)
    (w0 ucc uli uri ulj urj w2prev : cbdisodg.Weights) :
    (∀ q, cbdisodg.advance_rk_zone geo cs2 mach2 eos_type masses rk_param dt vceil
        w0 ucc uli uri ulj urj w2prev q 0 =
      (1 - rk_param) * (ucc q 0 + 0.5 *
        (cbdisodg.surface_term geo cs2 mach2 eos_type masses vceil ucc uli uri ulj urj q 0
          + cbdisodg.volume_term geo cs2 mach2 eos_type masses vceil ucc q 0)
        * dt / (geo.dx * geo.dy)) + rk_param * w0 q 0) ∧
    (∀ q l, l ≠ 0 → cbdisodg.advance_rk_zone geo cs2 mach2 eos_type masses rk_param dt vceil
        w0 ucc uli uri ulj urj w2prev q l = w2prev q l) := by
  constructor
  · intro q
    rfl
  · intro q l hl
    simp only [cbdisodg.advance_rk_zone]
    rw [if_neg hl]

theorem C7_dg_update_witness :
    cbdisodg.advance_rk_zone cbdisodg.testGeom 1 1 1 cbdisodg.testMasses 0 1 1
      cbdisodg.wZero cbdisodg.wOne cbdisodg.wThree cbdisodg.wOne cbdisodg.wOne cbdisodg.wOne
      cbdisodg.wZero 0 1 = cbdisodg.wZero 0 1 :=
  (C7_dg_update cbdisodg.testGeom 1 1 1 cbdisodg.testMasses 0 1 1
    cbdisodg.wZero cbdisodg.wOne cbdisodg.wThree cbdisodg.wOne cbdisodg.wOne cbdisodg.wOne
    cbdisodg.wZero).2 0 1 (by decide)

/-- C7 (counterexample): in a unit cell with `cs² = 1`, uniform density 1,
left neighbour density 3, `rk_param = 0`, `dt = 1`, the full advance writes
`1 + 0.5·S` to the density average while the claimed update
`w_old + (surface+volume)·Δt/(dx·dy)` gives `1 + S`, with
`S = 2.000000000000001 ≠ 0` the surface term: the factor 0.5 (and the
`l = 0` restriction) falsify the claim. -/
theorem C7_counterexample :
    cbdisodg.advance_rk_zone cbdisodg.testGeom 1 1 1 cbdisodg.testMasses 0 1 1
        cbdisodg.wZero cbdisodg.wOne cbdisodg.wThree cbdisodg.wOne cbdisodg.wOne cbdisodg.wOne
        cbdisodg.wZero 0 0 ≠
      cbdisodg.advance_rk_zone_claimed cbdisodg.testGeom 1 1 1 cbdisodg.testMasses 0 1 1
        cbdisodg.wZero cbdisodg.wOne cbdisodg.wThree cbdisodg.wOne cbdisodg.wOne cbdisodg.wOne
        0 0 := by
  simp only [cbdisodg.advance_rk_zone, cbdisodg.advance_rk_zone_claimed, if_true]
  rw [dg_surface_eval, dg_volume_eval]
  simp [cbdisodg.wOne, cbdisodg.wZero, cbdisodg.testGeom]
  norm_num

/-- C5 (amended): the buffers change nothing at or inside the onset radius
(and when disabled), but the active-region behaviour differs from the claim:
iso2d (and euler2d, which shares the code) uses the LEGACY ramp `max(r, 1)`,
not the linear ramp, in `U ← U − (U − U₀)·rate·Δt` with
`rate = driving_rate · √(M_c/r_onset³) · max(r, 1)`; cbdisodg_2d uses the
linear ramp `(r − r_onset)/(r_outer − r_onset)` but accumulates the RATE of
change `−(U − U₀)·rate` into `cons_dot` instead of applying a `Δt`-scaled
update. -/
theorem C5_buffer (b : KeplerianBuffer) (bc : cbdisodg.KeplerianBuffer)
    (xc yc dt : ℝ) (cons : iso2d.Cons) (consv cons_dot : Fin 3 → ℝ) :
    (iso2d.buffer_source_term none xc yc dt cons = cons) ∧
    (Real.sqrt (xc * xc + yc * yc) ≤ b.outer_radius - b.onset_width →
      iso2d.buffer_source_term (some b) xc yc dt cons = cons) ∧
    (b.outer_radius - b.onset_width < Real.sqrt (xc * xc + yc * yc) →
      iso2d.buffer_source_term (some b) xc yc dt cons =
        ⟨cons.sigma - (cons.sigma - b.surface_density)
            * (b.driving_rate
              * Real.sqrt (b.central_mass / (b.outer_radius - b.onset_width) ^ (3.0:ℝ))
              * max (Real.sqrt (xc * xc + yc * yc)) 1) * dt,
         cons.px - (cons.px
            - b.surface_density * Real.sqrt (b.central_mass / Real.sqrt (xc * xc + yc * yc))
              * (-yc / Real.sqrt (xc * xc + yc * yc)))
            * (b.driving_rate
              * Real.sqrt (b.central_mass / (b.outer_radius - b.onset_width) ^ (3.0:ℝ))
              * max (Real.sqrt (xc * xc + yc * yc)) 1) * dt,
         cons.py - (cons.py
            - b.surface_density * Real.sqrt (b.central_mass / Real.sqrt (xc * xc + yc * yc))
              * (xc / Real.sqrt (xc * xc + yc * yc)))
            * (b.driving_rate
              * Real.sqrt (b.central_mass / (b.outer_radius - b.onset_width) ^ (3.0:ℝ))
              * max (Real.sqrt (xc * xc + yc * yc)) 1) * dt⟩) ∧
    (bc.is_enabled = false →
      cbdisodg.buffer_source_term bc xc yc consv cons_dot = cons_dot) ∧
    (Real.sqrt (xc * xc + yc * yc) ≤ bc.outer_radius - bc.onset_width →
      cbdisodg.buffer_source_term bc xc yc consv cons_dot = cons_dot) ∧
    (bc.is_enabled = true →
      bc.outer_radius - bc.onset_width < Real.sqrt (xc * xc + yc * yc) →
      (cbdisodg.buffer_source_term bc xc yc consv cons_dot 0 =
        cons_dot 0 - (consv 0 - bc.surface_density)
          * (bc.driving_rate
            * Real.sqrt (bc.central_mass * (bc.outer_radius - bc.onset_width) ^ (-3.0:ℝ))
            * (Real.sqrt (xc * xc + yc * yc) - (bc.outer_radius - bc.onset_width))
            / (bc.outer_radius - (bc.outer_radius - bc.onset_width))) ∧
       cbdisodg.buffer_source_term bc xc yc consv cons_dot 1 =
        cons_dot 1 - (consv 1
            - bc.surface_density * Real.sqrt (bc.central_mass / Real.sqrt (xc * xc + yc * yc))
              * (-yc / Real.sqrt (xc * xc + yc * yc)))
          * (bc.driving_rate
            * Real.sqrt (bc.central_mass * (bc.outer_radius - bc.onset_width) ^ (-3.0:ℝ))
            * (Real.sqrt (xc * xc + yc * yc) - (bc.outer_radius - bc.onset_width))
            / (bc.outer_radius - (bc.outer_radius - bc.onset_width))) ∧
       cbdisodg.buffer_source_term bc xc yc consv cons_dot 2 =
        cons_dot 2 - (consv 2
            - bc.surface_density * Real.sqrt (bc.central_mass / Real.sqrt (xc * xc + yc * yc))
              * (xc / Real.sqrt (xc * xc + yc * yc)))
          * (bc.driving_rate
            * Real.sqrt (bc.central_mass * (bc.outer_radius - bc.onset_width) ^ (-3.0:ℝ))
            * (Real.sqrt (xc * xc + yc * yc) - (bc.outer_radius - bc.onset_width))
            / (bc.outer_radius - (bc.outer_radius - bc.onset_width))))) := by
  refine ⟨rfl, ?_, ?_, ?_, ?_, ?_⟩
  · intro h
    simp only [iso2d.buffer_source_term]
    rw [if_neg (not_lt.mpr h)]
  · intro h
    simp only [iso2d.buffer_source_term]
    rw [if_pos h]
  · intro h
    simp only [cbdisodg.buffer_source_term, h, Bool.false_eq_true, if_false]
  · intro h
    simp only [cbdisodg.buffer_source_term]
    cases hb : bc.is_enabled
    · rfl
    · rw [if_pos rfl, if_neg (not_lt.mpr h)]
  · intro he h
    simp only [cbdisodg.buffer_source_term, he, if_true]
    rw [if_pos h]
    exact ⟨rfl, rfl, rfl⟩

theorem C5_buffer_witness :
    iso2d.buffer_source_term (some ⟨1, 0, 8, 1, 10, 2⟩) 3 4 1 ⟨1, 2, 3⟩ = ⟨1, 2, 3⟩ ∧
    cbdisodg.buffer_source_term ⟨1, 0, 8, 1, 10, 2, true⟩ 3 4 cbdisodg.stOne cbdisodg.stOne
      = cbdisodg.stOne := by
  have hs25 : Real.sqrt ((3:ℝ) * 3 + 4 * 4) = 5 := by
    rw [show ((3:ℝ) * 3 + 4 * 4) = 5^2 by norm_num, Real.sqrt_sq (by norm_num : (0:ℝ) ≤ 5)]
  constructor
  · exact (C5_buffer ⟨1, 0, 8, 1, 10, 2⟩ ⟨1, 0, 8, 1, 10, 2, true⟩ 3 4 1 ⟨1, 2, 3⟩
      cbdisodg.stOne cbdisodg.stOne).2.1 (by rw [hs25]; norm_num)
  · exact (C5_buffer ⟨1, 0, 8, 1, 10, 2⟩ ⟨1, 0, 8, 1, 10, 2, true⟩ 3 4 1 ⟨1, 2, 3⟩
      cbdisodg.stOne cbdisodg.stOne).2.2.2.2.1 (by rw [hs25]; norm_num)

/-- C5 (counterexample): with buffer `(Σ_b, p_b, M_c, driving, r_outer,
onset_width) = (0, 0, 8, 1, 10, 8)` (so `r_onset = 2`, `ω_outer = 1`), zone
centre `(3, 4)` (`r = 5`), `dt = 1` and conserved state `(1, 0, 0)`, iso2d's
buffer drives `Σ` to `1 − 5 = −4` (legacy ramp `max(5,1) = 5`), while the
claimed linear-ramp update gives `1 − 3/8 = 5/8`. -/
theorem C5_counterexample :
    (iso2d.buffer_source_term (some ⟨0, 0, 8, 1, 10, 8⟩) 3 4 1 ⟨1, 0, 0⟩).sigma ≠
      (keplerianBufferClaimedUpdate ⟨0, 0, 8, 1, 10, 8⟩ 3 4 1 ⟨1, 0, 0⟩).sigma := by
  have hs25 : Real.sqrt (25:ℝ) = 5 := by
    rw [show (25:ℝ) = 5^2 by norm_num, Real.sqrt_sq (by norm_num : (0:ℝ) ≤ 5)]
  have hrp : (2:ℝ) ^ (3.0:ℝ) = 8 := by
    rw [show (3.0:ℝ) = ((3:ℕ):ℝ) by norm_num, Real.rpow_natCast]
    norm_num
  have hmax : max (5:ℝ) 1 = 5 := by
    norm_num [max_def]
  have hL : (iso2d.buffer_source_term (some ⟨0, 0, 8, 1, 10, 8⟩) 3 4 1 ⟨1, 0, 0⟩).sigma
      = -4 := by
    simp only [iso2d.buffer_source_term]
    norm_num [hs25, hrp, hmax, Real.sqrt_one]
  have hR : (keplerianBufferClaimedUpdate ⟨0, 0, 8, 1, 10, 8⟩ 3 4 1 ⟨1, 0, 0⟩).sigma
      = 5/8 := by
    simp only [keplerianBufferClaimedUpdate]
    norm_num [hs25, Real.sqrt_one]
  rw [hL, hR]
  norm_num

/-- The outer wavespeeds of the state `(ρ, u¹, p, s) = (4, 0, 3, 0)` are
`∓ 1/2` (sound speed squared `γp/(ρh) = 1/4`). -/
theorem srhd_ws_eval :
    srhd1d.primitive_to_outer_wavespeeds ⟨4, 0, 3, 0⟩ = (-(1/2), 1/2) := by
  have h14 : Real.sqrt (1/4) = 1/2 := by
    rw [show (1/4 : ℝ) = (1/2)^2 by norm_num, Real.sqrt_sq (by norm_num : (0:ℝ) ≤ 1/2)]
  unfold srhd1d.primitive_to_outer_wavespeeds srhd1d.primitive_to_sound_speed_squared
    srhd1d.primitive_to_enthalpy_density srhd1d.primitive_to_beta_component
    srhd1d.primitive_to_lorentz_factor srhd1d.primitive_to_gamma_beta_squared
    srhd1d.ADIABATIC_GAMMA
  norm_num [Real.sqrt_one, h14]

/-- C6: whenever the face speed lies inside `[am, ap]`, srhd_1d `riemann_hllc`
computes the contact speed `v*` as the minus-root of
`a v*² + b v* + c = 0` with `a = F_hll[τ] + F_hll[D]`,
`b = -(U_hll[τ] + U_hll[D] + F_hll[S])`, `c = U_hll[S]` (using `v* = -c/b`
when `|a| < 1e-10`), sets `p* = -a·v* + F_hll[S]`, and reconstructs the left
star state when `v_face < v*` and the right star state otherwise. -/
theorem C6_hllc (pl pr : srhd1d.Prim) (vf : ℝ)
    (h1 : srhd1d.hllc_am pl pr ≤ vf) (h2 : vf ≤ srhd1d.hllc_ap pl pr) :
    srhd1d.riemann_hllc pl pr vf =
      (if vf < srhd1d.hllc_vstar pl pr then srhd1d.hllc_left_star_flux pl pr vf
       else srhd1d.hllc_right_star_flux pl pr vf) ∧
    srhd1d.hllc_vstar pl pr =
      (if |srhd1d.hllc_f_hll pl pr 2 + srhd1d.hllc_f_hll pl pr 0| < 1e-10
       then -(srhd1d.hllc_u_hll pl pr 1) /
         (-(srhd1d.hllc_u_hll pl pr 2 + srhd1d.hllc_u_hll pl pr 0
            + srhd1d.hllc_f_hll pl pr 1))
       else (-(-(srhd1d.hllc_u_hll pl pr 2 + srhd1d.hllc_u_hll pl pr 0
              + srhd1d.hllc_f_hll pl pr 1))
           - Real.sqrt ((-(srhd1d.hllc_u_hll pl pr 2 + srhd1d.hllc_u_hll pl pr 0
                + srhd1d.hllc_f_hll pl pr 1))
              * (-(srhd1d.hllc_u_hll pl pr 2 + srhd1d.hllc_u_hll pl pr 0
                + srhd1d.hllc_f_hll pl pr 1))
              - 4 * (srhd1d.hllc_f_hll pl pr 2 + srhd1d.hllc_f_hll pl pr 0)
                * srhd1d.hllc_u_hll pl pr 1))
         / (2 * (srhd1d.hllc_f_hll pl pr 2 + srhd1d.hllc_f_hll pl pr 0))) ∧
    srhd1d.hllc_pstar pl pr =
      -(srhd1d.hllc_f_hll pl pr 2 + srhd1d.hllc_f_hll pl pr 0) * srhd1d.hllc_vstar pl pr
        + srhd1d.hllc_f_hll pl pr 1 := by
  refine ⟨?_, rfl, rfl⟩
  simp only [srhd1d.riemann_hllc]
  rw [if_neg (not_lt.mpr h1), if_neg (not_lt.mpr h2)]

theorem C6_hllc_witness :
    srhd1d.hllc_am ⟨4, 0, 3, 0⟩ ⟨4, 0, 3, 0⟩ ≤ 0 ∧
    (0:ℝ) ≤ srhd1d.hllc_ap ⟨4, 0, 3, 0⟩ ⟨4, 0, 3, 0⟩ ∧
    srhd1d.riemann_hllc ⟨4, 0, 3, 0⟩ ⟨4, 0, 3, 0⟩ 0 =
      (if (0:ℝ) < srhd1d.hllc_vstar ⟨4, 0, 3, 0⟩ ⟨4, 0, 3, 0⟩
       then srhd1d.hllc_left_star_flux ⟨4, 0, 3, 0⟩ ⟨4, 0, 3, 0⟩ 0
       else srhd1d.hllc_right_star_flux ⟨4, 0, 3, 0⟩ ⟨4, 0, 3, 0⟩ 0) := by
  have ham : srhd1d.hllc_am ⟨4, 0, 3, 0⟩ ⟨4, 0, 3, 0⟩ ≤ 0 := by
    unfold srhd1d.hllc_am
    rw [srhd_ws_eval]
    norm_num
  have hap : (0:ℝ) ≤ srhd1d.hllc_ap ⟨4, 0, 3, 0⟩ ⟨4, 0, 3, 0⟩ := by
    unfold srhd1d.hllc_ap
    rw [srhd_ws_eval]
    norm_num
  exact ⟨ham, hap, (C6_hllc ⟨4, 0, 3, 0⟩ ⟨4, 0, 3, 0⟩ 0 ham hap).1⟩

/-- Unfolding of the Newton loop with fuel left. -/
theorem newtonLoop_succ (gm m tau ss tol p : ℝ) (n : ℕ) :
    srhd1d.newtonLoop gm m tau ss tol p (n + 1) =
      if |(srhd1d.newtonBody gm m tau ss p).f| < tol
      then ((srhd1d.newtonBody gm m tau ss p).p, (srhd1d.newtonBody gm m tau ss p).w, false)
      else srhd1d.newtonLoop gm m tau ss tol (srhd1d.newtonBody gm m tau ss p).p n := rfl

/-- Unfolding of the Newton loop at the iteration cap. -/
theorem newtonLoop_zero (gm m tau ss tol p : ℝ) :
    srhd1d.newtonLoop gm m tau ss tol p 0 =
      ((srhd1d.newtonBody gm m tau ss p).p, (srhd1d.newtonBody gm m tau ss p).w, true) := rfl

/-- Seeding the srhd_1d Newton iteration with the exact pressure of a forward
conversion makes the first residual vanish, so the loop exits immediately with
the original pressure and Lorentz factor. -/
theorem srhd_newtonBody_exact (rho u pre : ℝ) (hrho : 0 < rho) (_hpre : 0 < pre)
    (hb : u * u / (1 + u * u) ≤ 1 - 1e-10) :
    srhd1d.newtonBody srhd1d.ADIABATIC_GAMMA (rho * Real.sqrt (1 + u * u))
      (rho * Real.sqrt (1 + u * u) * ((rho + 4 * pre) / rho * Real.sqrt (1 + u * u) - 1) - pre)
      ((rho + 4 * pre) * Real.sqrt (1 + u * u) * u
        * ((rho + 4 * pre) * Real.sqrt (1 + u * u) * u)) pre
      = ⟨pre, Real.sqrt (1 + u * u), 0⟩ := by
  have h1u : (0:ℝ) < 1 + u * u := by nlinarith [mul_self_nonneg u]
  set W := Real.sqrt (1 + u * u) with hWdef
  have hW2 : W * W = 1 + u * u := Real.mul_self_sqrt h1u.le
  have hWpos : 0 < W := Real.sqrt_pos.mpr h1u
  have hWne : W ≠ 0 := ne_of_gt hWpos
  have hrne : rho ≠ 0 := ne_of_gt hrho
  have hH : (0:ℝ) < rho + 4 * pre := by linarith
  have hHne : rho + 4 * pre ≠ 0 := ne_of_gt hH
  simp only [srhd1d.newtonBody, srhd1d.ADIABATIC_GAMMA]
  have het : rho * W * ((rho + 4 * pre) / rho * W - 1) - pre + pre + rho * W
      = (rho + 4 * pre) * (W * W) := by
    field_simp
    ring
  rw [het]
  have hb2 : (rho + 4 * pre) * W * u * ((rho + 4 * pre) * W * u)
      / ((rho + 4 * pre) * (W * W)) / ((rho + 4 * pre) * (W * W)) = u * u / (1 + u * u) := by
    rw [← hW2]
    field_simp
    ring
  rw [hb2, min_eq_left hb]
  have hw2 : (1:ℝ) - u * u / (1 + u * u) = 1 / (1 + u * u) := by
    field_simp
  rw [hw2, one_div_one_div, ← hWdef]
  have he : (rho * W * ((rho + 4 * pre) / rho * W - 1) - pre + rho * W * (1 - W)
      + pre * (1 - (1 + u * u))) / (rho * W * W) = pre / rho * 3 := by
    rw [← hW2]
    field_simp
    ring
  rw [he]
  have hdterm : rho * W / W = rho := by
    field_simp
  rw [hdterm]
  have hf : rho * (pre / rho * 3) * (4 / 3 - 1) - pre = 0 := by
    field_simp
    ring
  rw [hf, zero_div, sub_zero]

/-- The srhd_1d inverse applied to the forward conversion of a physical
primitive state, seeded with the original pressure, returns that state
exactly (real arithmetic). -/
theorem srhd_roundtrip (rho u pre s dv coord : ℝ)
    (hrho : 0 < rho) (hpre : 0 < pre) (hdv : 0 < dv)
    (hb : u * u / (1 + u * u) ≤ 1 - 1e-10)
    (hmach : u * u / (1 + u * u) / (1e6 : ℝ) ^ (2.0 : ℝ) ≤ pre / rho * 3) :
    (srhd1d.conserved_to_primitive (srhd1d.primitive_to_conserved ⟨rho, u, pre, s⟩ dv)
        pre dv coord).prim = ⟨rho, u, pre, s⟩ := by
  have h1u : (0:ℝ) < 1 + u * u := by nlinarith [mul_self_nonneg u]
  set W := Real.sqrt (1 + u * u) with hWdef
  have hW2 : W * W = 1 + u * u := Real.mul_self_sqrt h1u.le
  have hWpos : 0 < W := Real.sqrt_pos.mpr h1u
  have hWne : W ≠ 0 := ne_of_gt hWpos
  have hrne : rho ≠ 0 := ne_of_gt hrho
  have hdvne : dv ≠ 0 := ne_of_gt hdv
  have hH : (0:ℝ) < rho + 4 * pre := by linarith
  have hHne : rho + 4 * pre ≠ 0 := ne_of_gt hH
  have hW1 : 1 ≤ W := by
    have h' := Real.sqrt_le_sqrt (show (1:ℝ) ≤ 1 + u * u by nlinarith)
    rwa [Real.sqrt_one] at h'
  set cons := srhd1d.primitive_to_conserved ⟨rho, u, pre, s⟩ dv with hconsdef
  have henth : srhd1d.primitive_to_enthalpy_density ⟨rho, u, pre, s⟩ = rho + 4 * pre := by
    unfold srhd1d.primitive_to_enthalpy_density srhd1d.ADIABATIC_GAMMA
    norm_num
    ring
  have hc0 : cons 0 = dv * (rho * W) := by
    rw [hconsdef, hWdef]
    rfl
  have hc1 : cons 1 = dv * (rho * W)
      * (srhd1d.primitive_to_enthalpy_density ⟨rho, u, pre, s⟩ / rho) * u := by
    rw [hconsdef, hWdef]
    rfl
  rw [henth] at hc1
  have hc2 : cons 2 = dv * (rho * W)
      * (srhd1d.primitive_to_enthalpy_density ⟨rho, u, pre, s⟩ / rho * W - 1) - dv * pre := by
    rw [hconsdef, hWdef]
    rfl
  rw [henth] at hc2
  have hc3 : cons 3 = dv * (rho * W) * s := by
    rw [hconsdef, hWdef]
    rfl
  have hM : cons 0 / dv = rho * W := by
    rw [hc0]
    field_simp
  have hS : cons 1 / dv = (rho + 4 * pre) * W * u := by
    rw [hc1]
    field_simp
    ring
  have hT : cons 2 / dv = rho * W * ((rho + 4 * pre) / rho * W - 1) - pre := by
    rw [hc2]
    field_simp
    ring
  have htolpos : 0 < 1e-12 * (cons 0 + cons 2) / dv := by
    rw [hc0, hc2]
    have hcs : dv * (rho * W) + (dv * (rho * W) * ((rho + 4 * pre) / rho * W - 1) - dv * pre)
        = dv * ((rho + 4 * pre) * (W * W) - pre) := by
      field_simp
      ring
    rw [hcs]
    have hWW : (1:ℝ) ≤ W * W := by nlinarith
    have hpos : 0 < (rho + 4 * pre) * (W * W) - pre := by nlinarith
    exact div_pos (mul_pos (by norm_num) (by nlinarith)) hdv
  have hbody := srhd_newtonBody_exact rho u pre hrho hpre hb
  rw [← hWdef] at hbody
  have hloop : srhd1d.newtonLoop srhd1d.ADIABATIC_GAMMA (rho * W)
      (rho * W * ((rho + 4 * pre) / rho * W - 1) - pre)
      ((rho + 4 * pre) * W * u * ((rho + 4 * pre) * W * u))
      (1e-12 * (cons 0 + cons 2) / dv) pre 500 = (pre, W, false) := by
    rw [show (500 : ℕ) = 499 + 1 from rfl, newtonLoop_succ, hbody]
    dsimp only
    rw [abs_zero, if_pos htolpos]
  simp only [srhd1d.conserved_to_primitive]
  rw [hM, hT, hS, hloop]
  dsimp only
  have hr0 : rho * W / W = rho := by
    field_simp
  have hden : rho * W * ((rho + 4 * pre) / rho * W - 1) - pre + rho * W + pre
      = (rho + 4 * pre) * (W * W) := by
    field_simp
    ring
  rw [hr0, hden]
  have hr1 : W * ((rho + 4 * pre) * W * u) / ((rho + 4 * pre) * (W * W)) = u := by
    field_simp
    ring
  rw [hr1]
  have hr3 : cons 3 / cons 0 = s := by
    rw [hc3, hc0]
    field_simp
  rw [hr3]
  rw [if_neg (not_lt.mpr hmach)]

/-- C2: for every primitive state satisfying the floors and ceilings the
conversion primitive → conserved → primitive is the identity, exactly, in
real arithmetic (hence a fortiori to 1e−12 for iso2d/euler2d and 1e−10 for
srhd_1d): iso2d needs only `Σ ≠ 0`; euler2d needs `Σ` above the density
floor, `p` above the pressure floor and each velocity component within the
ceiling; srhd_1d (volume `dv > 0`, Newton seeded with the original pressure)
needs `ρ, p > 0`, `β² = u²/(1+u²)` within the `1 − 1e-10` cap and the
specific internal energy `3p/ρ` above the Mach-ceiling floor
`β²/(10⁶)²`. -/
theorem C2_roundtrip :
    (∀ p : iso2d.Prim, p.sigma ≠ 0 →
      iso2d.conserved_to_primitive (iso2d.primitive_to_conserved p) = p) ∧
    (∀ (p : euler2d.Prim) (vc df pf : ℝ), 0 < p.sigma → df ≤ p.sigma →
      |p.vx| ≤ vc → |p.vy| ≤ vc → pf ≤ p.pres →
      euler2d.conserved_to_primitive (euler2d.primitive_to_conserved p) vc df pf = p) ∧
    (∀ (p : srhd1d.Prim) (dv coord : ℝ), 0 < p.rho → 0 < p.pre → 0 < dv →
      p.u1 * p.u1 / (1 + p.u1 * p.u1) ≤ 1 - 1e-10 →
      p.u1 * p.u1 / (1 + p.u1 * p.u1) / (1e6 : ℝ) ^ (2.0 : ℝ) ≤ p.pre / p.rho * 3 →
      (srhd1d.conserved_to_primitive (srhd1d.primitive_to_conserved p dv)
        p.pre dv coord).prim = p) := by
  refine ⟨?_, ?_, ?_⟩
  · rintro ⟨sig, vx, vy⟩ h
    simp only [iso2d.conserved_to_primitive, iso2d.primitive_to_conserved] at h ⊢
    congr 1 <;> field_simp
  · rintro ⟨sig, vx, vy, pres⟩ vc df pf h0 hdf hvx hvy hpf
    have hsne : sig ≠ 0 := ne_of_gt h0
    have hsgn : ∀ x : ℝ, csign (x * sig) = csign x := by
      intro x
      unfold csign
      by_cases hx : x < 0
      · rw [if_pos hx, if_pos (mul_neg_of_neg_of_pos hx h0)]
      · rw [if_neg hx, if_neg (not_lt.mpr (mul_nonneg (not_lt.mp hx) h0.le))]
    simp only [euler2d.conserved_to_primitive, euler2d.primitive_to_conserved] at hdf ⊢
    rw [max_eq_left hdf]
    have hdx : vx * sig / sig = vx := by field_simp
    have hdy : vy * sig / sig = vy := by field_simp
    rw [hdx, hdy, hsgn vx, hsgn vy, min_eq_left hvx, min_eq_left hvy,
      csign_mul_abs, csign_mul_abs]
    have hpres : (pres / (euler2d.GAMMA_LAW_INDEX - 1) + 0.5 * sig * (vx * vx + vy * vy)
        - 0.5 * sig * (vx * vx + vy * vy)) * (euler2d.GAMMA_LAW_INDEX - 1) = pres := by
      unfold euler2d.GAMMA_LAW_INDEX
      norm_num
    rw [hpres, max_eq_left hpf]
  · rintro ⟨rho, u, pre, s⟩ dv coord h1 h2 h3 h4 h5
    exact srhd_roundtrip rho u pre s dv coord h1 h2 h3 h4 h5

/-- The Newton loop step written with the named step functions. -/
theorem newtonLoop_succ_next (gm m tau ss tol p : ℝ) (n : ℕ) :
    srhd1d.newtonLoop gm m tau ss tol p (n + 1) =
      if |srhd1d.newtonResidual gm m tau ss p| < tol
      then (srhd1d.newtonNext gm m tau ss p, (srhd1d.newtonBody gm m tau ss p).w, false)
      else srhd1d.newtonLoop gm m tau ss tol (srhd1d.newtonNext gm m tau ss p) n := rfl

/-- The loop exits with the max-iteration flag exactly when none of the first
`n` residual checks passed. -/
theorem newtonLoop_capFlag (gm m tau ss tol : ℝ) (n : ℕ) (p : ℝ) :
    (srhd1d.newtonLoop gm m tau ss tol p n).2.2 = true ↔
      ∀ k < n, tol ≤ |srhd1d.newtonResidual gm m tau ss
        ((srhd1d.newtonNext gm m tau ss)^[k] p)| := by
  induction n generalizing p with
  | zero =>
    rw [newtonLoop_zero]
    simp
  | succ n ih =>
    rw [newtonLoop_succ_next]
    by_cases hf : |srhd1d.newtonResidual gm m tau ss p| < tol
    · rw [if_pos hf]
      simp only [Bool.false_eq_true, false_iff, not_forall]
      exact ⟨0, n.succ_pos, by simpa using not_le.mpr hf⟩
    · rw [if_neg hf, ih]
      constructor
      · intro h k hk
        match k, hk with
        | 0, _ => simpa using not_lt.mp hf
        | k + 1, hk =>
          have h' := h k (Nat.lt_of_succ_lt_succ hk)
          rwa [← Function.iterate_succ_apply] at h'
      · intro h k hk
        have h' := h (k + 1) (Nat.succ_lt_succ hk)
        rwa [Function.iterate_succ_apply] at h'

/-- The loop stops at the first iteration whose residual is below tolerance,
with no max-iteration flag. -/
theorem newtonLoop_early (gm m tau ss tol : ℝ) (n : ℕ) :
    ∀ (K : ℕ) (p : ℝ), K < n →
      (∀ k < K, tol ≤ |srhd1d.newtonResidual gm m tau ss
        ((srhd1d.newtonNext gm m tau ss)^[k] p)|) →
      |srhd1d.newtonResidual gm m tau ss ((srhd1d.newtonNext gm m tau ss)^[K] p)| < tol →
      srhd1d.newtonLoop gm m tau ss tol p n =
        ((srhd1d.newtonNext gm m tau ss)^[K + 1] p,
         (srhd1d.newtonBody gm m tau ss ((srhd1d.newtonNext gm m tau ss)^[K] p)).w,
         false) := by
  induction n with
  | zero =>
    intro K p hK
    exact absurd hK (Nat.not_lt_zero K)
  | succ n ih =>
    intro K p hK hbefore hKres
    match K with
    | 0 =>
      rw [newtonLoop_succ_next, if_pos (by simpa using hKres)]
      simp
    | K + 1 =>
      have h0 : tol ≤ |srhd1d.newtonResidual gm m tau ss p| := by
        simpa using hbefore 0 (Nat.succ_pos K)
      rw [newtonLoop_succ_next, if_neg (not_lt.mpr h0)]
      rw [ih K (srhd1d.newtonNext gm m tau ss p) (Nat.lt_of_succ_lt_succ hK)
        (fun k hk => by
          have h' := hbefore (k + 1) (Nat.succ_lt_succ hk)
          rwa [Function.iterate_succ_apply] at h')
        (by rwa [← Function.iterate_succ_apply])]
      rw [← Function.iterate_succ_apply, ← Function.iterate_succ_apply]

/-- When no residual check passes, the loop runs the cap out: `n + 1` body
executions and the max-iteration flag set. -/
theorem newtonLoop_caprun (gm m tau ss tol : ℝ) (n : ℕ) :
    ∀ p : ℝ,
      (∀ k < n, tol ≤ |srhd1d.newtonResidual gm m tau ss
        ((srhd1d.newtonNext gm m tau ss)^[k] p)|) →
      srhd1d.newtonLoop gm m tau ss tol p n =
        ((srhd1d.newtonNext gm m tau ss)^[n + 1] p,
         (srhd1d.newtonBody gm m tau ss ((srhd1d.newtonNext gm m tau ss)^[n] p)).w,
         true) := by
  induction n with
  | zero =>
    intro p _
    rw [newtonLoop_zero]
    simp [srhd1d.newtonNext]
  | succ n ih =>
    intro p h
    have h0 : tol ≤ |srhd1d.newtonResidual gm m tau ss p| := by
      simpa using h 0 (Nat.succ_pos n)
    rw [newtonLoop_succ_next, if_neg (not_lt.mpr h0)]
    rw [ih (srhd1d.newtonNext gm m tau ss p)
      (fun k hk => by
        have h' := h (k + 1) (Nat.succ_lt_succ hk)
        rwa [Function.iterate_succ_apply] at h')]
    rw [← Function.iterate_succ_apply, ← Function.iterate_succ_apply]

/-- C3: srhd_1d `conserved_to_primitive` runs a Newton iteration on pressure
that stops as soon as `|f| < 1e-12 · (D + τ)` (`D`, `τ` the volume-specific
conserved mass and energy: the tolerance is `1e-12 · (cons[0] + cons[2])/dv`)
or after the 500-iteration cap; the fatal max-iteration report, carrying the
physical coordinate, fires exactly when no residual check passed within the
cap, and the fatal diagnostics carrying the coordinate fire exactly when
`cons[2] ≤ 0` and when the recovered pressure is `≤ 0` (machine NaN has no
real-number counterpart; in the C code the pressure check also traps NaN via
`p != p`, while the `tau` check `cons[2] <= 0.0` is false for NaN). -/
theorem C3_newton_inversion (cons : Fin 4 → ℝ) (seedPre dv coordinate : ℝ)
    (gm M T S tol : ℝ)
    (hgm : gm = srhd1d.ADIABATIC_GAMMA)
    (hMdef : M = cons 0 / dv) (hTdef : T = cons 2 / dv)
    (hSdef : S = cons 1 / dv * (cons 1 / dv))
    (htoldef : tol = 1e-12 * (cons 0 + cons 2) / dv) :
    (tol = 1e-12 * (M + T)) ∧
    ((srhd1d.conserved_to_primitive cons seedPre dv coordinate).maxIterReport
        = some coordinate ↔
      ∀ k < 500, tol ≤ |srhd1d.newtonResidual gm M T S
        ((srhd1d.newtonNext gm M T S)^[k] seedPre)|) ∧
    (∀ K < 500,
      (∀ k < K, tol ≤ |srhd1d.newtonResidual gm M T S
        ((srhd1d.newtonNext gm M T S)^[k] seedPre)|) →
      |srhd1d.newtonResidual gm M T S ((srhd1d.newtonNext gm M T S)^[K] seedPre)| < tol →
      srhd1d.newtonLoop gm M T S tol seedPre 500 =
        ((srhd1d.newtonNext gm M T S)^[K + 1] seedPre,
         (srhd1d.newtonBody gm M T S ((srhd1d.newtonNext gm M T S)^[K] seedPre)).w,
         false)) ∧
    ((∀ k < 500, tol ≤ |srhd1d.newtonResidual gm M T S
        ((srhd1d.newtonNext gm M T S)^[k] seedPre)|) →
      srhd1d.newtonLoop gm M T S tol seedPre 500 =
        ((srhd1d.newtonNext gm M T S)^[500 + 1] seedPre,
         (srhd1d.newtonBody gm M T S ((srhd1d.newtonNext gm M T S)^[500] seedPre)).w,
         true)) ∧
    ((srhd1d.conserved_to_primitive cons seedPre dv coordinate).tauReport
        = some coordinate ↔ cons 2 ≤ 0) ∧
    ((srhd1d.conserved_to_primitive cons seedPre dv coordinate).pressureReport
        = some coordinate ↔
      (srhd1d.conserved_to_primitive cons seedPre dv coordinate).prim.pre ≤ 0) := by
  subst hgm hMdef hTdef hSdef htoldef
  refine ⟨by rw [mul_div_assoc, add_div], ?_, ?_, ?_, ?_, ?_⟩
  · have hproj : (srhd1d.conserved_to_primitive cons seedPre dv coordinate).maxIterReport
        = if (srhd1d.newtonLoop srhd1d.ADIABATIC_GAMMA (cons 0 / dv) (cons 2 / dv)
            (cons 1 / dv * (cons 1 / dv)) (1e-12 * (cons 0 + cons 2) / dv)
            seedPre 500).2.2
          then some coordinate else none := rfl
    rw [hproj]
    have hiff := newtonLoop_capFlag srhd1d.ADIABATIC_GAMMA (cons 0 / dv) (cons 2 / dv)
      (cons 1 / dv * (cons 1 / dv)) (1e-12 * (cons 0 + cons 2) / dv) 500 seedPre
    cases hb : (srhd1d.newtonLoop srhd1d.ADIABATIC_GAMMA (cons 0 / dv) (cons 2 / dv)
        (cons 1 / dv * (cons 1 / dv)) (1e-12 * (cons 0 + cons 2) / dv) seedPre 500).2.2
    · rw [hb] at hiff
      simp only [Bool.false_eq_true, false_iff] at hiff
      simp [hiff]
    · rw [hb] at hiff
      simp only [true_iff] at hiff
      simpa using hiff
  · exact fun K hK hbef hKres =>
      newtonLoop_early srhd1d.ADIABATIC_GAMMA (cons 0 / dv) (cons 2 / dv)
        (cons 1 / dv * (cons 1 / dv)) (1e-12 * (cons 0 + cons 2) / dv) 500 K seedPre
        hK hbef hKres
  · exact fun hall =>
      newtonLoop_caprun srhd1d.ADIABATIC_GAMMA (cons 0 / dv) (cons 2 / dv)
        (cons 1 / dv * (cons 1 / dv)) (1e-12 * (cons 0 + cons 2) / dv) 500 seedPre hall
  · have hproj : (srhd1d.conserved_to_primitive cons seedPre dv coordinate).tauReport
        = if cons 2 ≤ 0 then some coordinate else none := rfl
    rw [hproj]
    by_cases h : cons 2 ≤ 0 <;> simp [h]
  · have hproj : (srhd1d.conserved_to_primitive cons seedPre dv coordinate).pressureReport
        = if (srhd1d.conserved_to_primitive cons seedPre dv coordinate).prim.pre ≤ 0
          then some coordinate else none := rfl
    rw [hproj]
    by_cases h : (srhd1d.conserved_to_primitive cons seedPre dv coordinate).prim.pre ≤ 0 <;>
      simp [h]

theorem C3_newton_witness :
    srhd1d.newtonLoop srhd1d.ADIABATIC_GAMMA 1 3 0 (4e-12) 1 500 =
      ((srhd1d.newtonNext srhd1d.ADIABATIC_GAMMA 1 3 0)^[0 + 1] 1,
       (srhd1d.newtonBody srhd1d.ADIABATIC_GAMMA 1 3 0
         ((srhd1d.newtonNext srhd1d.ADIABATIC_GAMMA 1 3 0)^[0] 1)).w, false) :=
  (C3_newton_inversion srhdTestCons 1 1 (1/2) srhd1d.ADIABATIC_GAMMA 1 3 0 (4e-12)
    rfl (by norm_num [srhdTestCons]) (by norm_num [srhdTestCons])
    (by norm_num [srhdTestCons]) (by norm_num [srhdTestCons])).2.2.1 0 (by norm_num)
    (fun k hk => absurd hk (Nat.not_lt_zero k))
    (by
      rw [Function.iterate_zero_apply]
      unfold srhd1d.newtonResidual srhd1d.newtonBody srhd1d.ADIABATIC_GAMMA
      norm_num [min_def, Real.sqrt_one])

theorem C2_roundtrip_witness :
    iso2d.conserved_to_primitive (iso2d.primitive_to_conserved ⟨1, 2, 3⟩) = ⟨1, 2, 3⟩ ∧
    euler2d.conserved_to_primitive (euler2d.primitive_to_conserved ⟨1, 1/2, -(1/2), 2⟩)
      1 1 1 = ⟨1, 1/2, -(1/2), 2⟩ ∧
    (srhd1d.conserved_to_primitive (srhd1d.primitive_to_conserved ⟨1, 0, 1, 0⟩ 1)
      1 1 0).prim = ⟨1, 0, 1, 0⟩ :=
  ⟨C2_roundtrip.1 ⟨1, 2, 3⟩ (by norm_num),
   C2_roundtrip.2.1 ⟨1, 1/2, -(1/2), 2⟩ 1 1 1 (by norm_num) (by norm_num)
     (by rw [abs_of_nonneg] <;> norm_num) (by rw [abs_of_nonpos] <;> norm_num) (by norm_num),
   C2_roundtrip.2.2 ⟨1, 0, 1, 0⟩ 1 0 (by norm_num) (by norm_num) (by norm_num)
     (by norm_num) (by norm_num)⟩
